import Mathlib

/-!
Verification development for the meta-ads-webhook repository
(`meta_ads_analyzer.py`, `webhook_server.py`).

The Python code is shallowly embedded: dynamically typed Python values are
modelled by the inductive `PyVal`, Python exceptions by `Except PyErr`,
CPython floats by exact rationals (`ℚ`), and the two external collaborators
(the generative-text completion call and the ClickUp comment delivery) by
explicit input parameters carrying their outcome.  Wall-clock time
(`datetime.now(TZ)`) is likewise passed in as an ambient `now : String`.
`str.upper()` is modelled by ASCII uppercasing extended with the accented
Latin letters that occur in the repository's token tables.
-/

namespace MetaAds

/-- Model of a dynamically typed Python value as it occurs in the webhook
payloads: `None`, booleans, ints, floats (modelled exactly as rationals),
strings, lists and string-keyed dicts (modelled as association lists in
insertion order). -/
inductive PyVal where
  | none : PyVal
  | bool (b : Bool) : PyVal
  | int (n : ℤ) : PyVal
  | float (q : ℚ) : PyVal
  | str (s : String) : PyVal
  | list (l : List PyVal) : PyVal
  | dict (entries : List (String × PyVal)) : PyVal

/-- Model of the Python exceptions that the two source files can raise and
catch.  The carried message strings approximate CPython's rendering `str(e)`
closely enough for the response bodies built from them. -/
inductive PyErr where
  | typeError (msg : String) : PyErr
  | valueError (msg : String) : PyErr
  | attributeError (msg : String) : PyErr
  | keyError (key : String) : PyErr
deriving DecidableEq

/-- Rendering `str(e)` of an exception, used when the webhook handlers embed
the exception text in a 500 response body. -/
def errStr : PyErr → String
  | .typeError m => m
  | .valueError m => m
  | .attributeError m => m
  | .keyError k => "\x27" ++ k ++ "\x27"

/-- Python truthiness (`bool(v)`): `None`, `False`, zero, empty string, empty
list and empty dict are falsy, everything else truthy. -/
def pyTruthy : PyVal → Bool
  | .none => false
  | .bool b => b
  | .int n => n != 0
  | .float q => q != 0
  | .str s => s != ""
  | .list l => !l.isEmpty
  | .dict d => !d.isEmpty

/-- Lookup in a dict (association list, first binding wins) with a default:
the model of `d.get(k, default)` once `d` is known to be a dict. -/
def dictGetD (entries : List (String × PyVal)) (k : String) (dflt : PyVal) : PyVal :=
  match entries.find? (fun e => e.1 == k) with
  | some e => e.2
  | Option.none => dflt

/-- Key membership test on a dict: the model of `k in d`. -/
def hasKey (entries : List (String × PyVal)) (k : String) : Bool :=
  entries.any (fun e => e.1 == k)

/-- Model of `v.get(k, default)` on an arbitrary value: dicts answer the
lookup, any other value raises `AttributeError` as in CPython. -/
def pyGetD (v : PyVal) (k : String) (dflt : PyVal) : Except PyErr PyVal :=
  match v with
  | .dict entries => .ok (dictGetD entries k dflt)
  | _ => .error (.attributeError "object has no attribute \x27get\x27")

/-- Model of iterating a Python value with `for d in v`: a list yields its
elements, a dict yields its keys (as strings), a string yields its
characters; other values raise `TypeError`. -/
def iterElems : PyVal → Except PyErr (List PyVal)
  | .list l => .ok l
  | .dict entries => .ok (entries.map (fun e => PyVal.str e.1))
  | .str s => .ok (s.data.map (fun c => PyVal.str (String.mk [c])))
  | _ => .error (.typeError "object is not iterable")

/-- Model of `len(v)` for the sized values the code applies it to. -/
def pyLen : PyVal → ℕ
  | .list l => l.length
  | .dict entries => entries.length
  | .str s => s.data.length
  | _ => 0

/-- Whitespace characters stripped by Python's `str.strip()`. -/
def pyIsSpace (c : Char) : Bool :=
  c == ' ' || c == '\t' || c == '\n' || c == '\x0d' || c == '\x0b' || c == '\x0c'

/-- Model of `str.strip()`: drop leading and trailing whitespace. -/
def pyStrip (s : String) : String :=
  String.mk (((s.data.dropWhile pyIsSpace).reverse.dropWhile pyIsSpace).reverse)

/-- Uppercasing of one character: ASCII `Char.toUpper` extended with the
accented Latin letters appearing in the repository's campaign-name tokens. -/
def pyCharUpper (c : Char) : Char :=
  if c == 'á' then 'Á' else if c == 'à' then 'À' else if c == 'â' then 'Â'
  else if c == 'ã' then 'Ã' else if c == 'é' then 'É' else if c == 'ê' then 'Ê'
  else if c == 'í' then 'Í' else if c == 'ó' then 'Ó' else if c == 'ô' then 'Ô'
  else if c == 'õ' then 'Õ' else if c == 'ú' then 'Ú' else if c == 'ç' then 'Ç'
  else c.toUpper

/-- Model of `str.upper()`. -/
def pyUpper (s : String) : String :=
  String.mk (s.data.map pyCharUpper)

/-- Digits of a decimal literal folded into a natural number. -/
def digitsToNat (l : List Char) : ℕ :=
  l.foldl (fun a c => 10 * a + (c.toNat - 48)) 0

/-- Parse of the body of a decimal float literal after the optional sign:
`digits [ . digits ] [ (e|E) [sign] digits ]` with at least one digit in the
mantissa.  Returns the exact rational value. -/
def parseFloatBody (l : List Char) : Option ℚ :=
  let ip := l.takeWhile Char.isDigit
  let rest := l.dropWhile Char.isDigit
  let step2 : Option (List Char × List Char × List Char) :=
    match rest with
    | '.' :: r =>
        let fp := r.takeWhile Char.isDigit
        some (ip, fp, r.dropWhile Char.isDigit)
    | r => some (ip, [], r)
  match step2 with
  | Option.none => Option.none
  | some (ip, fp, rest2) =>
      if ip.isEmpty && fp.isEmpty then Option.none
      else
        let mant : ℚ := (digitsToNat ip : ℚ) + (digitsToNat fp : ℚ) / ((10 : ℚ) ^ fp.length)
        match rest2 with
        | [] => some mant
        | e :: r =>
            if e == 'e' || e == 'E' then
              let (esign, edigs) :=
                match r with
                | '+' :: r2 => (1, r2)
                | '-' :: r2 => (-1, r2)
                | r2 => ((1 : ℤ), r2)
              if edigs.isEmpty || !edigs.all Char.isDigit then Option.none
              else
                let ev : ℤ := esign * (digitsToNat edigs : ℤ)
                some (mant * (10 : ℚ) ^ ev)
            else Option.none

/-- Model of parsing a string with the float constructor: strip whitespace,
optional sign, decimal mantissa with optional exponent.  (Digit-group
underscores and the `inf`/`nan` literals of CPython are outside the model;
no repository input uses them.) -/
def pyParseFloat (s : String) : Option ℚ :=
  match (pyStrip s).data with
  | [] => Option.none
  | '+' :: r => parseFloatBody r
  | '-' :: r => (parseFloatBody r).map (fun q => -q)
  | r => parseFloatBody r

/-- Model of the builtin `float(v)`: numbers and booleans coerce, strings are
parsed as float literals (`ValueError` on failure), everything else raises
`TypeError`. -/
def pyFloat : PyVal → Except PyErr ℚ
  | .bool b => .ok (if b then 1 else 0)
  | .int n => .ok (n : ℚ)
  | .float q => .ok q
  | .str s =>
      match pyParseFloat s with
      | some q => .ok q
      | Option.none => .error (.valueError ("could not convert string to float: " ++ s))
  | _ => .error (.typeError "float() argument must be a string or a real number")

/-- Truncation of a rational toward zero: the model of `int()` applied to a
float. -/
def ratTrunc (q : ℚ) : ℤ :=
  if 0 ≤ q.num then (q.num / (q.den : ℤ)) else -((-q.num) / (q.den : ℤ))

/-- Model of `_safe_float` (meta_ads_analyzer.py lines 73-77): `float(x)`
with every exception silently replaced by the default. -/
def safe_float (x : PyVal) (dflt : ℚ) : ℚ :=
  match pyFloat x with
  | .ok q => q
  | .error _ => dflt

/-- Model of `_safe_int` (meta_ads_analyzer.py lines 80-84): `int(float(x))`
with every exception silently replaced by the default. -/
def safe_int (x : PyVal) (dflt : ℤ) : ℤ :=
  match pyFloat x with
  | .ok q => ratTrunc q
  | .error _ => dflt

/-- Model of `_compute_roas` (meta_ads_analyzer.py lines 87-88):
`conversion_value / spend` when both are positive, else `0.0`. -/
def compute_roas (spend conversion_value : ℚ) : ℚ :=
  if 0 < spend && 0 < conversion_value then conversion_value / spend else 0

/-- Substring containment on strings, used to state that a rendered report
carries a given fragment. -/
def strContains (hay needle : String) : Prop :=
  ∃ a b : String, hay = a ++ needle ++ b

/-- Executable substring test (`needle in hay` on Python strings). -/
def infixB (needle : List Char) : List Char → Bool
  | [] => needle.isEmpty
  | c :: rest => needle.isPrefixOf (c :: rest) || infixB needle rest

/-- Executable substring test on `String`s. -/
def strContainsB (hay needle : String) : Bool :=
  infixB needle.data hay.data

/-- Decimal digit list (most significant first) of a natural number. -/
def natDigits (n : ℕ) : List Char :=
  (Nat.toDigits 10 n)

/-- Zero-pad the decimal rendering of a natural number to width 2. -/
def pad2 (n : ℕ) : String :=
  if n < 10 then "0" ++ toString n else toString n

/-- Zero-pad the decimal rendering of a natural number to width 4, as
`strftime("%Y")` does for the years in range. -/
def pad4 (n : ℕ) : String :=
  if n < 10 then "000" ++ toString n
  else if n < 100 then "00" ++ toString n
  else if n < 1000 then "0" ++ toString n
  else toString n

/-- Insert thousands separators into a digit list given most significant
first: the model of the `:,` format specifier on a nonnegative int. -/
def commaGroup (l : List Char) : List Char :=
  let rec go : List Char → List Char
    | [] => []
    | c₁ :: c₂ :: c₃ :: rest@(_ :: _) => c₁ :: c₂ :: c₃ :: ',' :: go rest
    | l => l
  (go l.reverse).reverse

/-- Model of the f-string `:,` format for an int: decimal digits grouped in
threes by commas. -/
def fmtComma (n : ℤ) : String :=
  (if n < 0 then "-" else "") ++ String.mk (commaGroup (natDigits n.natAbs))

/-- Round a rational to the nearest integer, ties to even: the rounding used
by CPython's fixed-point float formatting. -/
def roundHalfEven (q : ℚ) : ℤ :=
  let f : ℤ := ⌊q⌋
  let r : ℚ := q - (f : ℚ)
  if r < 1/2 then f
  else if (1:ℚ)/2 < r then f + 1
  else if f % 2 = 0 then f else f + 1

/-- Model of the f-string `:.2f` format on a float: two digits after the
decimal point, rounding half to even. -/
def fmt2 (q : ℚ) : String :=
  let n := roundHalfEven (q * 100)
  let a := n.natAbs
  (if n < 0 then "-" else "") ++ toString (a / 100) ++ "." ++ pad2 (a % 100)

/-- Digits after the decimal point of `num/den` (with `num < den`), emitted
until the expansion terminates, capped at 17 digits as a stand-in for float
repr precision. -/
def fracDigits : ℕ → ℕ → ℕ → List Char
  | 0, _, _ => []
  | _, _, 0 => []
  | rem, den, fuel + 1 =>
      let d := (rem * 10) / den
      Char.ofNat (48 + d) :: fracDigits ((rem * 10) % den) den fuel

/-- Approximate model of CPython's `repr` of a float with an exact decimal
value: integer part, then the terminating decimal expansion (`.0` when the
value is integral). -/
def pyFloatRepr (q : ℚ) : String :=
  let sign := if q < 0 then "-" else ""
  let a : ℚ := |q|
  let ip : ℕ := a.num.natAbs / a.den
  let rem : ℕ := a.num.natAbs % a.den
  if rem = 0 then sign ++ toString ip ++ ".0"
  else sign ++ toString ip ++ "." ++ String.mk (fracDigits rem a.den 17)

mutual

/-- Rendering of a value as a container element, approximating Python's
`repr`: strings are quoted (no claim inspects the container renderings). -/
def pyStrQ : PyVal → String
  | .str s => "\x27" ++ s ++ "\x27"
  | .none => "None"
  | .bool b => if b then "True" else "False"
  | .int n => toString n
  | .float q => pyFloatRepr q
  | .list l => "[" ++ pyStrQList l ++ "]"
  | .dict entries => "\x7b" ++ pyStrQEntries entries ++ "\x7d"

/-- Comma-joined renderings of list elements. -/
def pyStrQList : List PyVal → String
  | [] => ""
  | [v] => pyStrQ v
  | v :: rest => pyStrQ v ++ ", " ++ pyStrQList rest

/-- Comma-joined renderings of dict entries. -/
def pyStrQEntries : List (String × PyVal) → String
  | [] => ""
  | [e] => "\x27" ++ e.1 ++ "\x27: " ++ pyStrQ e.2
  | e :: rest => "\x27" ++ e.1 ++ "\x27: " ++ pyStrQ e.2 ++ ", " ++ pyStrQEntries rest

end

/-- Rendering `str(v)` of a value interpolated into an f-string.  Strings
pass through; containers are rendered via `pyStrQ`. -/
def pyStr : PyVal → String
  | .none => "None"
  | .bool b => if b then "True" else "False"
  | .int n => toString n
  | .float q => pyFloatRepr q
  | .str s => s
  | .list l => "[" ++ pyStrQList l ++ "]"
  | .dict entries => "\x7b" ++ pyStrQEntries entries ++ "\x7d"

/-- JSON string escaping for the characters `json.dumps` must escape; the
repository's keys and values use none of them. -/
def jsonEscape (s : String) : String :=
  String.mk (s.data.flatMap (fun c =>
    if c == '"' then ['\\', '"']
    else if c == '\\' then ['\\', '\\']
    else if c == '\n' then ['\\', 'n']
    else if c == '\t' then ['\\', 't']
    else if c == '\x0d' then ['\\', 'r']
    else [c]))

mutual

/-- Model of `json.dumps(v, ensure_ascii=False, indent=2)` for the value
shapes occurring in `results` maps, at a given current indentation. -/
def jsonDump : PyVal → ℕ → String
  | .none, _ => "null"
  | .bool b, _ => if b then "true" else "false"
  | .int n, _ => toString n
  | .float q, _ => pyFloatRepr q
  | .str s, _ => "\"" ++ jsonEscape s ++ "\""
  | .list [], _ => "[]"
  | .list l, ind =>
      "[\n" ++ jsonDumpList l (ind + 2) ++
        "\n" ++ String.mk (List.replicate ind ' ') ++ "]"
  | .dict [], _ => "\x7b\x7d"
  | .dict entries, ind =>
      "\x7b\n" ++ jsonDumpEntries entries (ind + 2) ++
        "\n" ++ String.mk (List.replicate ind ' ') ++ "\x7d"

/-- Indented, comma-and-newline joined dumps of list elements. -/
def jsonDumpList : List PyVal → ℕ → String
  | [], _ => ""
  | [v], ind => String.mk (List.replicate ind ' ') ++ jsonDump v ind
  | v :: rest, ind =>
      String.mk (List.replicate ind ' ') ++ jsonDump v ind ++ ",\n" ++
        jsonDumpList rest ind

/-- Indented, comma-and-newline joined dumps of dict entries. -/
def jsonDumpEntries : List (String × PyVal) → ℕ → String
  | [], _ => ""
  | [e], ind =>
      String.mk (List.replicate ind ' ') ++ "\"" ++ jsonEscape e.1 ++ "\": " ++
        jsonDump e.2 ind
  | e :: rest, ind =>
      String.mk (List.replicate ind ' ') ++ "\"" ++ jsonEscape e.1 ++ "\": " ++
        jsonDump e.2 ind ++ ",\n" ++ jsonDumpEntries rest ind

end

/-- Calendar test for a leap year, as `datetime` validates day-of-month. -/
def isLeap (y : ℕ) : Bool :=
  y % 4 == 0 && (y % 100 != 0 || y % 400 == 0)

/-- Number of days in a month of a given year. -/
def daysInMonth (y m : ℕ) : ℕ :=
  if m == 2 then (if isLeap y then 29 else 28)
  else if m == 4 || m == 6 || m == 9 || m == 11 then 30
  else 31

/-- Validate a parsed year/month/day triple exactly as constructing
`datetime(y, m, d)` does, and encode it as the order-preserving key
`y*10000 + m*100 + d`. -/
def validYMD (y m d : ℕ) : Option ℕ :=
  if 1 ≤ y && 1 ≤ m && m ≤ 12 && 1 ≤ d && d ≤ daysInMonth y m then
    some (y * 10000 + m * 100 + d)
  else Option.none

/-- Model of `datetime.strptime(s, "%Y-%m-%d")`: exactly four year digits,
one or two month digits, one or two day digits, nothing else, with calendar
validation.  Returns the date key `y*10000 + m*100 + d` on success. -/
def parseYMD (s : String) : Option ℕ :=
  match s.data with
  | y₁ :: y₂ :: y₃ :: y₄ :: '-' :: rest =>
      if [y₁, y₂, y₃, y₄].all Char.isDigit then
        let y := digitsToNat [y₁, y₂, y₃, y₄]
        match rest with
        | m₁ :: '-' :: rest₂ =>
            if m₁.isDigit then parseDay y (digitsToNat [m₁]) rest₂ else Option.none
        | m₁ :: m₂ :: '-' :: rest₂ =>
            if m₁.isDigit && m₂.isDigit then
              parseDay y (digitsToNat [m₁, m₂]) rest₂
            else Option.none
        | _ => Option.none
      else Option.none
  | _ => Option.none
where
  /-- Parse the trailing day digits and validate the triple. -/
  parseDay (y m : ℕ) : List Char → Option ℕ
  | [d₁] => if d₁.isDigit then validYMD y m (digitsToNat [d₁]) else Option.none
  | [d₁, d₂] =>
      if d₁.isDigit && d₂.isDigit then validYMD y m (digitsToNat [d₁, d₂])
      else Option.none
  | _ => Option.none

/-- Model of `strftime("%d/%m/%Y")` on a date key. -/
def fmtDMY (k : ℕ) : String :=
  pad2 (k % 100) ++ "/" ++ pad2 (k / 100 % 100) ++ "/" ++ pad4 (k / 10000)

/-- Outcome of the external generative-text completion call: either the
response content (`response.choices[0].message.content`, an optional string)
or the message of the exception the call raised.  The call is a black-box
collaborator, so its outcome is an input of the model. -/
abbrev AiOut := Except String (Option String)

/-- Model of `resolve_report_dates` (meta_ads_analyzer.py lines 54-70) on a
dict's entries: format a well-formed `report_date` as `DD/MM/YYYY`, keep an
explicit invalid-format notice for a malformed one, and an explicit
not-informed notice for a missing/falsy one.  A truthy non-string raises
`TypeError` (only `ValueError` is caught in the source).  `generated_at` is
the ambient clock string. -/
def resolve_report_dates (entries : List (String × PyVal)) (now : String) :
    Except PyErr (String × String) :=
  let raw := dictGetD entries "report_date" .none
  if pyTruthy raw then
    match raw with
    | .str s =>
        match parseYMD s with
        | some k => .ok (fmtDMY k, now)
        | Option.none => .ok ("Formato inválido: " ++ s ++ " (esperado YYYY-MM-DD)", now)
    | _ => .error (.typeError "strptime() argument 1 must be str")
  else
    .ok ("Data não informada (envie \x27report_date\x27 no Make: YYYY-MM-DD)", now)

/-- Model of line 101 of `_infer_objective`: `(campaign_name or "").upper()`.
A truthy non-string raises `AttributeError`. -/
def inferName (campaign_name : PyVal) : Except PyErr String :=
  if pyTruthy campaign_name then
    match campaign_name with
    | .str s => .ok (pyUpper s)
    | _ => .error (.attributeError "object has no attribute \x27upper\x27")
  else .ok ""

/-- Model of line 116 of `_infer_objective`: the key set of
`(results or {})`.  A truthy non-dict raises `AttributeError`. -/
def inferRKeys (results : PyVal) : Except PyErr (List String) :=
  if pyTruthy results then
    match results with
    | .dict entries => .ok (entries.map Prod.fst)
    | _ => .error (.attributeError "object has no attribute \x27keys\x27")
  else .ok []

/-- Model of `_infer_objective` (meta_ads_analyzer.py lines 91-128): a truthy
explicit objective is stripped, uppercased and passed through; otherwise the
uppercased campaign name is scanned for token groups in the fixed order
CONVERSIONS, MESSAGES, TRAFFIC, LEADS, ENGAGEMENT; otherwise the keys of
`results` are matched against known key groups in the same order; otherwise
UNKNOWN. -/
def infer_objective (campaign_name objective_field results : PyVal) :
    Except PyErr String :=
  if pyTruthy objective_field then
    .ok (pyUpper (pyStrip (pyStr objective_field)))
  else
    match inferName campaign_name with
    | .error e => .error e
    | .ok name =>
      if strContainsB name "CONVERS" || strContainsB name "VEND" || strContainsB name "PURCHASE" then
        .ok "CONVERSIONS"
      else if strContainsB name "MENSAG" || strContainsB name "MESSAGE" ||
          strContainsB name "WHATS" || strContainsB name "DIRECT" then
        .ok "MESSAGES"
      else if strContainsB name "TRÁFEG" || strContainsB name "TRAFE" ||
          strContainsB name "CLIQU" || strContainsB name "LINK" then
        .ok "TRAFFIC"
      else if strContainsB name "LEAD" || strContainsB name "CADAST" then
        .ok "LEADS"
      else if strContainsB name "ENGAJ" || strContainsB name "ENGAGE" ||
          strContainsB name "SEGUID" || strContainsB name "PERFIL" then
        .ok "ENGAGEMENT"
      else
        match inferRKeys results with
        | .error e => .error e
        | .ok rkeys =>
          if rkeys.contains "purchases" || rkeys.contains "purchase" || rkeys.contains "orders" then
            .ok "CONVERSIONS"
          else if rkeys.contains "messages_started" ||
              rkeys.contains "messaging_conversations_started" then
            .ok "MESSAGES"
          else if rkeys.contains "link_clicks" || rkeys.contains "landing_page_views" ||
              rkeys.contains "outbound_clicks" then
            .ok "TRAFFIC"
          else if rkeys.contains "leads" then
            .ok "LEADS"
          else if rkeys.contains "post_engagements" || rkeys.contains "engagements" ||
              rkeys.contains "profile_visits" || rkeys.contains "follows" then
            .ok "ENGAGEMENT"
          else
            .ok "UNKNOWN"

/-- Model of the `objective_field` computation of `build_daily_prompt`
(line 160): `(data.get("objective") or "").strip()`.  A truthy non-string
raises `AttributeError`. -/
def objectiveFieldOf (d : List (String × PyVal)) : Except PyErr String :=
  let ov := dictGetD d "objective" .none
  if pyTruthy ov then
    match ov with
    | .str s => .ok (pyStrip s)
    | _ => .error (.attributeError "object has no attribute \x27strip\x27")
  else .ok ""

/-- Model of `build_daily_prompt` (meta_ads_analyzer.py lines 135-232): all
metric coercions, the objective inference and the full instruction text
(the source template carries a final `.strip()`, which only removes the
template's trailing newline; the text is assembled here already stripped). -/
def build_daily_prompt (d : List (String × PyVal)) : Except PyErr String :=
  let campaign_name := dictGetD d "campaign_name" (.str "")
  let ad_name := dictGetD d "ad_name" (.str "")
  let adset_name := dictGetD d "adset_name" (.str "")
  let spend := safe_float (dictGetD d "spend" (.int 0)) 0
  let impressions := safe_int (dictGetD d "impressions" (.int 0)) 0
  let reach := safe_int (dictGetD d "reach" (.int 0)) 0
  let clicks := safe_int (dictGetD d "clicks" (.int 0)) 0
  let unique_clicks := safe_int (dictGetD d "unique_clicks" (.int 0)) 0
  let ctr := safe_float (dictGetD d "ctr" (.int 0)) 0
  let unique_ctr := safe_float (dictGetD d "unique_ctr" (.int 0)) 0
  let cpc := safe_float (dictGetD d "cpc" (.int 0)) 0
  let cpm := safe_float (dictGetD d "cpm" (.int 0)) 0
  let frequency := safe_float (dictGetD d "frequency" (.int 0)) 0
  let conversions := safe_int (dictGetD d "conversions" (.int 0)) 0
  let conversion_value := safe_float (dictGetD d "conversion_value" (.int 0)) 0
  let roas := compute_roas spend conversion_value
  match objectiveFieldOf d with
  | .error e => .error e
  | .ok objective_field =>
  let results :=
    (let rv := dictGetD d "results" (.dict []); if pyTruthy rv then rv else .dict [])
  match infer_objective campaign_name (.str objective_field) results with
  | .error e => .error e
  | .ok inferred_obj =>
  let results_json := jsonDump results 0
  .ok ("Você é um gestor de tráfego pago sênior. Gere uma análise DIÁRIA curta e objetiva, para tomada de decisão interna (não é relatório para cliente).\n\nTAREFA (OBRIGATÓRIA):\n1) Identifique o OBJETIVO da campanha usando:\n   - primeiro: campo objective (se vier)\n   - segundo: nome da campanha (ex: [ENGAJAMENTO], [CONVERSÃO], [MENSAGEM], [TRÁFEGO], etc.)\n   - terceiro: as métricas disponíveis em results\n2) Escolha os KPIs principais ADEQUADOS AO OBJETIVO com base nas métricas disponíveis:\n   - Use 3 a 6 KPIs no máximo\n   - Se o objetivo for ENGAGEMENT/MESSAGES/TRAFFIC, NÃO use \"conversões\" como KPI principal (pode ser 0)\n   - Use results quando existir (ex.: messages_started, link_clicks, profile_visits, post_engagements, leads, purchases, etc.)\n3) Recomende ações com \"COMO FAZER\" (passo a passo curto) quando houver problema ou oportunidade.\n4) Se estiver normal, diga explicitamente que não há ação imediata.\n\nCONTEXTO:\n- Campanha: "
    ++ pyStr campaign_name
    ++ "\n- Conjunto: " ++ pyStr adset_name
    ++ "\n- Anúncio: " ++ pyStr ad_name
    ++ "\n- Objective informado: "
    ++ (if objective_field != "" then objective_field else "(não informado)")
    ++ "\n- Objective inferido (pista): " ++ inferred_obj
    ++ "\n\nMÉTRICAS UNIVERSAIS:\n- Spend: R$ " ++ fmt2 spend
    ++ "\n- Impressões: " ++ fmtComma impressions
    ++ "\n- Alcance: " ++ fmtComma reach
    ++ "\n- CPM: R$ " ++ fmt2 cpm
    ++ "\n- Frequência: " ++ fmt2 frequency
    ++ "\n\nMÉTRICAS DE CLIQUE (se existirem):\n- Clicks: " ++ toString clicks
    ++ " (únicos: " ++ toString unique_clicks
    ++ ")\n- CTR: " ++ fmt2 ctr ++ "% (único: " ++ fmt2 unique_ctr
    ++ "%)\n- CPC: R$ " ++ fmt2 cpc
    ++ "\n\nMÉTRICAS DE CONVERSÃO (se existirem, mas NÃO são obrigatórias):\n- Conversões: "
    ++ toString conversions
    ++ "\n- Valor de conversão: R$ " ++ fmt2 conversion_value
    ++ "\n- ROAS: " ++ fmt2 roas
    ++ "x\n\nRESULTADOS (variável por objetivo):\n" ++ results_json
    ++ "\n\nFORMATO OBRIGATÓRIO:\n\n🎯 OBJETIVO IDENTIFICADO:\n- (uma linha)\n\n📌 KPIs PRINCIPAIS (3–6):\n- (liste apenas os KPIs certos para o objetivo, com números)\n\n🟢 PONTOS POSITIVOS:\n- até 3 bullets\n\n🟡 PONTOS A MELHORAR:\n- até 3 bullets\n\n🚨 AÇÕES IMEDIATAS (COMO FAZER):\n- até 3 ações\n- cada ação deve dizer COMO executar (copy/criativo/público/orçamento)\n- se estiver tudo normal: \"Nenhuma ação imediata necessária.\"\n\nREGRAS:\n- Direto, sem texto longo\n- Sem texto para cliente\n- Use as métricas certas para o objetivo (não force conversão em engajamento).")

/-- Result dict of `analyze_daily_metrics`, modelled as a structure: the
success shape carries `type`, `metrics` and `analysis`, the failure shape
carries `error`; both carry `formatted_comment`. -/
structure DailyResult where
  success : Bool
  type : Option String := Option.none
  metrics : Option (List (String × PyVal)) := Option.none
  analysis : Option String := Option.none
  error : Option String := Option.none
  formatted_comment : String

/-- Model of `format_daily_comment` (meta_ads_analyzer.py lines 319-379).
The source also reads `data.get("client_name", "Snob Motel LTDA")` into a
variable that the template never uses; that dead read cannot raise and is
dropped here. -/
def format_daily_comment (report_date generated_at : String) (campaign_name : PyVal)
    (spend : ℚ) (impressions reach clicks unique_clicks : ℤ)
    (ctr unique_ctr cpc cpm frequency : ℚ) (conversions : ℤ) (roas : ℚ)
    (analysis_text : String) : String :=
  let kpis :=
    "**KPIs (base)**\n• 💰 **Spend:** R$ " ++ fmt2 spend
    ++ "  \n• 👁️ **Impressões:** " ++ fmtComma impressions
    ++ "  \n• 📣 **Alcance:** " ++ fmtComma reach
    ++ "  \n• 📢 **CPM:** R$ " ++ fmt2 cpm
    ++ "  \n• 🔄 **Frequência:** " ++ fmt2 frequency
    ++ "\n\n**KPIs (clique)**\n• 🖱️ **Clicks:** " ++ toString clicks
    ++ " (**" ++ toString unique_clicks
    ++ "** únicos)  \n• 📊 **CTR:** " ++ fmt2 ctr
    ++ "% (**único:** " ++ fmt2 unique_ctr
    ++ "%)  \n• 💵 **CPC:** R$ " ++ fmt2 cpc
  let kpis :=
    if 0 < conversions || 0 < roas then
      kpis ++ "\n\n**KPIs (conversão)**\n• 🎯 **Conversões:** " ++ toString conversions
        ++ "  \n• 📈 **ROAS:** " ++ fmt2 roas ++ "x"
    else kpis
  "📊 **ANÁLISE DIÁRIA – META ADS (INTERNO)**\n\n📅 **Dados referentes a:** "
    ++ report_date
    ++ "  \n⏱️ **Relatório gerado em:** " ++ generated_at
    ++ "\n\n---\n\n### 📌 **Campanha:** **" ++ pyStr campaign_name
    ++ "**\n\n" ++ kpis
    ++ "\n\n---\n\n" ++ analysis_text

/-- Model of `format_daily_comment_fallback` (meta_ads_analyzer.py lines
382-419): the canned report used when the generative call failed, built from
the raw record only.  It re-resolves the report dates, which can raise the
same `TypeError` as the initial resolution (and then propagates, as an
exception inside an `except` handler does). -/
def format_daily_comment_fallback (d : List (String × PyVal)) (now : String) :
    Except PyErr String :=
  match resolve_report_dates d now with
  | .error e => .error e
  | .ok (report_date, generated_at) =>
  let campaign_name := dictGetD d "campaign_name" (.str "Campanha sem nome")
  let spend := safe_float (dictGetD d "spend" (.int 0)) 0
  let impressions := safe_int (dictGetD d "impressions" (.int 0)) 0
  let clicks := safe_int (dictGetD d "clicks" (.int 0)) 0
  let ctr := safe_float (dictGetD d "ctr" (.int 0)) 0
  let cpc := safe_float (dictGetD d "cpc" (.int 0)) 0
  let cpm := safe_float (dictGetD d "cpm" (.int 0)) 0
  let frequency := safe_float (dictGetD d "frequency" (.int 0)) 0
  .ok ("📊 **ANÁLISE DIÁRIA – META ADS (INTERNO)**\n\n📅 **Dados referentes a:** "
    ++ report_date
    ++ "  \n⏱️ **Relatório gerado em:** " ++ generated_at
    ++ "\n\n---\n\n### 📌 **Campanha:** **" ++ pyStr campaign_name
    ++ "**\n\n**KPIs (base)**\n• 💰 **Spend:** R$ " ++ fmt2 spend
    ++ "  \n• 👁️ **Impressões:** " ++ fmtComma impressions
    ++ "  \n• 📢 **CPM:** R$ " ++ fmt2 cpm
    ++ "  \n• 🔄 **Frequência:** " ++ fmt2 frequency
    ++ "\n\n**KPIs (clique)**\n• 🖱️ **Clicks:** " ++ toString clicks
    ++ "  \n• 📊 **CTR:** " ++ fmt2 ctr
    ++ "%  \n• 💵 **CPC:** R$ " ++ fmt2 cpc
    ++ "\n\n---\n\n_Análise IA indisponível. Métricas coletadas com sucesso._")

/-- Model of `analyze_daily_metrics` (meta_ads_analyzer.py lines 239-316).
The dates are resolved and the prompt is built before the `try` block, so
their exceptions propagate; the generative call's outcome is the `ai`
parameter, and any exception of that call is caught locally, producing the
fallback report with `success = False`. -/
def analyze_daily_metrics (data : PyVal) (ai : AiOut) (now : String) :
    Except PyErr DailyResult :=
  match data with
  | .dict d =>
    match resolve_report_dates d now with
    | .error e => .error e
    | .ok (report_date, generated_at) =>
      let campaign_name := dictGetD d "campaign_name" (.str "")
      let spend := safe_float (dictGetD d "spend" (.int 0)) 0
      let impressions := safe_int (dictGetD d "impressions" (.int 0)) 0
      let reach := safe_int (dictGetD d "reach" (.int 0)) 0
      let clicks := safe_int (dictGetD d "clicks" (.int 0)) 0
      let unique_clicks := safe_int (dictGetD d "unique_clicks" (.int 0)) 0
      let ctr := safe_float (dictGetD d "ctr" (.int 0)) 0
      let unique_ctr := safe_float (dictGetD d "unique_ctr" (.int 0)) 0
      let cpc := safe_float (dictGetD d "cpc" (.int 0)) 0
      let cpm := safe_float (dictGetD d "cpm" (.int 0)) 0
      let frequency := safe_float (dictGetD d "frequency" (.int 0)) 0
      let conversions := safe_int (dictGetD d "conversions" (.int 0)) 0
      let conversion_value := safe_float (dictGetD d "conversion_value" (.int 0)) 0
      let roas := compute_roas spend conversion_value
      match build_daily_prompt d with
      | .error e => .error e
      | .ok _prompt =>
        match ai with
        | .error e =>
            match format_daily_comment_fallback d now with
            | .error e₂ => .error e₂
            | .ok fb => .ok { success := false, error := some e, formatted_comment := fb }
        | .ok content =>
            let analysis_text := pyStrip (content.getD "")
            .ok { success := true, type := some "daily_single",
                  metrics := some [("spend", .float spend), ("impressions", .int impressions),
                                   ("clicks", .int clicks), ("ctr", .float ctr),
                                   ("cpc", .float cpc)],
                  analysis := some analysis_text,
                  formatted_comment :=
                    format_daily_comment report_date generated_at campaign_name spend
                      impressions reach clicks unique_clicks ctr unique_ctr cpc cpm
                      frequency conversions roas analysis_text }
  | _ => .error (.attributeError "object has no attribute \x27get\x27")

/-- Sequencing of a fallible computation over a list, mirroring how a Python
generator inside `sum(...)` stops at the first raised exception. -/
def mapME (f : α → Except PyErr β) : List α → Except PyErr (List β)
  | [] => .ok []
  | a :: t =>
    match f a with
    | .error e => .error e
    | .ok b =>
      match mapME f t with
      | .error e => .error e
      | .ok bs => .ok (b :: bs)

/-- Per-record coercion `_safe_float(d.get(k, 0))` as iterated by the weekly
sums; `d.get` itself raises on a non-dict record. -/
def getFloatOf (k : String) (d : PyVal) : Except PyErr ℚ :=
  match pyGetD d k (.int 0) with
  | .error e => .error e
  | .ok v => .ok (safe_float v 0)

/-- Per-record coercion `_safe_int(d.get(k, 0))` as iterated by the weekly
sums. -/
def getIntOf (k : String) (d : PyVal) : Except PyErr ℤ :=
  match pyGetD d k (.int 0) with
  | .error e => .error e
  | .ok v => .ok (safe_int v 0)

/-- Aggregate block of `analyze_weekly_metrics` (meta_ads_analyzer.py lines
598-604): totals of spend/impressions/clicks/conversions, the arithmetic
mean of per-record `ctr` guarded by the input's truthiness, and the
spend-over-clicks weighted CPC guarded by positive clicks. -/
structure WeeklyAgg where
  total_spend : ℚ
  total_impressions : ℤ
  total_clicks : ℤ
  total_conversions : ℤ
  avg_ctr : ℚ
  avg_cpc : ℚ

/-- Model of meta_ads_analyzer.py lines 598-604.  The input is the raw JSON
body: iterating a list yields its records, iterating a dict yields its keys
(on which `.get` then raises), exactly as `for d in data_list` does.  The
float-valued sums (`spend`, `ctr`) are taken here in exact rational
arithmetic — the idealization of CPython's binary64 sums; where the
difference between the two matters (order-dependence of float addition),
`weeklyTotalSpendFl` below is the rounding-faithful model of the spend
total of line 598. -/
def weeklyAggregates (data_list : PyVal) : Except PyErr WeeklyAgg :=
  match iterElems data_list with
  | .error e => .error e
  | .ok elems =>
  match mapME (getFloatOf "spend") elems with
  | .error e => .error e
  | .ok spends =>
  match mapME (getIntOf "impressions") elems with
  | .error e => .error e
  | .ok imps =>
  match mapME (getIntOf "clicks") elems with
  | .error e => .error e
  | .ok clicks =>
  match mapME (getIntOf "conversions") elems with
  | .error e => .error e
  | .ok convs =>
  let total_spend := spends.sum
  let total_impressions := imps.sum
  let total_clicks := clicks.sum
  let total_conversions := convs.sum
  match (if pyTruthy data_list then
           match mapME (getFloatOf "ctr") elems with
           | .error e => Except.error e
           | .ok ctrs => Except.ok (ctrs.sum / (pyLen data_list : ℚ))
         else Except.ok 0) with
  | .error e => .error e
  | .ok avg_ctr =>
  let avg_cpc := if 0 < total_clicks then total_spend / (total_clicks : ℚ) else 0
  .ok ⟨total_spend, total_impressions, total_clicks, total_conversions, avg_ctr, avg_cpc⟩

/-- Date collection loop of `resolve_week_range` (meta_ads_analyzer.py lines
575-583): skip falsy `report_date` values, parse strings, skip the
`ValueError` of a malformed string, and propagate the `TypeError` of a
truthy non-string (only `ValueError` is caught in the source). -/
def collectDatesE : List PyVal → Except PyErr (List ℕ)
  | [] => .ok []
  | d :: t =>
    match pyGetD d "report_date" .none with
    | .error e => .error e
    | .ok raw =>
      if pyTruthy raw then
        match raw with
        | .str s =>
            match parseYMD s with
            | some k =>
                match collectDatesE t with
                | .error e => .error e
                | .ok ks => .ok (k :: ks)
            | Option.none => collectDatesE t
        | _ => .error (.typeError "strptime() argument 1 must be str")
      else collectDatesE t

/-- Sentinel emitted by `resolve_week_range` when no record carries a
parseable date. -/
def weekRangeSentinel : String :=
  "Período não informado (envie \x27report_date\x27 em cada item)"

/-- Model of `resolve_week_range` (meta_ads_analyzer.py lines 571-590):
range `[min, max]` over the successfully parsed `report_date`s, formatted
`DD/MM/YYYY a DD/MM/YYYY`, or the explicit sentinel when none parse. -/
def resolve_week_range (data_list : PyVal) : Except PyErr String :=
  match (if pyTruthy data_list then iterElems data_list else .ok []) with
  | .error e => .error e
  | .ok elems =>
  match collectDatesE elems with
  | .error e => .error e
  | .ok dates =>
  match dates with
  | [] => .ok weekRangeSentinel
  | k :: rest =>
      let mn := rest.foldl Nat.min k
      let mx := rest.foldl Nat.max k
      .ok (fmtDMY mn ++ " a " ++ fmtDMY mx)

/-- Result dict of `analyze_weekly_metrics`, modelled as a structure. -/
structure WeeklyResult where
  success : Bool
  type : Option String := Option.none
  error : Option String := Option.none
  formatted_comment : String

/-- Model of `format_weekly_comment` (meta_ads_analyzer.py lines 658-686). -/
def format_weekly_comment (week_range generated_at : String) (agg : WeeklyAgg)
    (analysis_text : String) : String :=
  "📊 **RELATÓRIO SEMANAL – META ADS**\n\n📅 **Dados referentes a:** "
    ++ week_range
    ++ "  \n⏱️ **Relatório gerado em:** " ++ generated_at
    ++ "\n\n---\n\n## 📌 **RESUMO DA SEMANA**\n• 💰 **Investimento total:** R$ "
    ++ fmt2 agg.total_spend
    ++ "  \n• 👁️ **Impressões:** " ++ fmtComma agg.total_impressions
    ++ "  \n• 🖱️ **Clicks:** " ++ toString agg.total_clicks
    ++ "  \n• 📊 **CTR médio:** " ++ fmt2 agg.avg_ctr
    ++ "%  \n• 💵 **CPC médio:** R$ " ++ fmt2 agg.avg_cpc
    ++ "  \n• 🎯 **Conversões:** " ++ toString agg.total_conversions
    ++ "\n\n---\n\n" ++ analysis_text

/-- Weekly instruction text (meta_ads_analyzer.py lines 609-625). -/
def build_weekly_prompt (week_range : String) (agg : WeeklyAgg) : String :=
  "Você é um gestor de tráfego pago sênior II. Crie um relatório semanal profissional para o gestor senior III verificar e decidir.\n\nPERÍODO DOS DADOS: "
    ++ week_range
    ++ "\n\nMÉTRICAS DA SEMANA:\n- Investimento total: R$ " ++ fmt2 agg.total_spend
    ++ "\n- Impressões: " ++ fmtComma agg.total_impressions
    ++ "\n- Clicks: " ++ toString agg.total_clicks
    ++ "\n- CTR médio: " ++ fmt2 agg.avg_ctr
    ++ "%\n- CPC médio: R$ " ++ fmt2 agg.avg_cpc
    ++ "\n- Conversões: " ++ toString agg.total_conversions
    ++ "\n\nFORNEÇA:\n1. RESUMO EXECUTIVO (2-3 parágrafos para o cliente)\n2. MÉTRICAS FORMATADAS (simples e visual)\n3. ANÁLISE E RECOMENDAÇÕES (técnico mas acessível)\n4. ROTEIRO DE ÁUDIO (tom conversacional, 1-2 minutos)"

/-- Model of `analyze_weekly_metrics` (meta_ads_analyzer.py lines 593-655):
aggregate, resolve the week range, build the prompt, and either format the
report from the generative response or return the canned weekly failure
notice with `success = False` when the generative call raised. -/
def analyze_weekly_metrics (data_list : PyVal) (ai : AiOut) (now : String) :
    Except PyErr WeeklyResult :=
  match weeklyAggregates data_list with
  | .error e => .error e
  | .ok agg =>
  match resolve_week_range data_list with
  | .error e => .error e
  | .ok week_range =>
  let _prompt := build_weekly_prompt week_range agg
  match ai with
  | .error e =>
      .ok { success := false, error := some e,
            formatted_comment := "Erro ao gerar relatório semanal." }
  | .ok content =>
      let analysis_text := pyStrip (content.getD "")
      .ok { success := true, type := some "weekly",
            formatted_comment := format_weekly_comment week_range now agg analysis_text }

/-- In-place update applied to one campaign dict by the loop of
`analyze_daily_metrics_consolidated` (meta_ads_analyzer.py lines 469-474):
write the payload's `report_date` when the item lacks the key and the
payload's value is truthy, then write the resolved `client_name` when the
item lacks the key and that value is truthy.  Python dict assignment appends
a fresh key in insertion order. -/
def updateConsolidatedCampaign (payload_rd client_name : PyVal)
    (c : List (String × PyVal)) : List (String × PyVal) :=
  let c₁ :=
    if !hasKey c "report_date" && pyTruthy payload_rd then
      c ++ [("report_date", payload_rd)]
    else c
  if !hasKey c₁ "client_name" && pyTruthy client_name then
    c₁ ++ [("client_name", client_name)]
  else c₁

/-- Post-state of the caller's `payload["campaigns"]` value after
`analyze_daily_metrics_consolidated` (meta_ads_analyzer.py lines 426-474)
returns: the guard of line 443 leaves a falsy, non-list or empty value
untouched, and otherwise the loop mutates each campaign dict in place via
`updateConsolidatedCampaign`.  This is the explicit-state model of the
function's only write to its input; non-dict campaign items (on which the
source's `in` test would not be a key lookup) are outside the claims and are
left unchanged. -/
def consolidatedCampaignsAfter (payload : List (String × PyVal)) : PyVal :=
  let cv := dictGetD payload "campaigns" .none
  match cv with
  | .list cs =>
      if cs.isEmpty then cv
      else
        let payload_rd := dictGetD payload "report_date" .none
        let client_name := dictGetD payload "client_name" (.str "Snob Motel LTDA")
        .list (cs.map (fun c =>
          match c with
          | .dict entries => .dict (updateConsolidatedCampaign payload_rd client_name entries)
          | other => other))
  | _ => cv

/-- HTTP response of a webhook handler: status code and JSON-shaped body. -/
structure HttpResponse where
  status : ℕ
  content : PyVal

/-- Outcome dict of `send_clickup_comment` (webhook_server.py lines 131-189),
modelled as a structure.  The delivery is a black-box subprocess call, so
its outcome is an input of the handler models. -/
structure SendResult where
  success : Bool
  comment_id : Option String := Option.none
  error : Option String := Option.none

/-- Embedding of an optional string into a JSON response value, as
`result.get("...")` yields the value or `None`. -/
def optPy : Option String → PyVal
  | some s => .str s
  | Option.none => .none

/-- Per-client ClickUp configuration (webhook_server.py lines 21-28). -/
structure ClientConfig where
  daily_task_id : String
  weekly_task_id : String
  account_name : String

/-- Model of `CLIENT_TASK_MAPPING` (webhook_server.py lines 21-28). -/
def CLIENT_TASK_MAPPING : List (String × ClientConfig) :=
  [("snob-motel", ⟨"86ae5nt15", "86ae5nt1d", "CA - Snob Motel"⟩)]

/-- Lookup of a client slug in the configuration table. -/
def lookupClient (slug : String) : Option ClientConfig :=
  (CLIENT_TASK_MAPPING.find? (fun e => e.1 == slug)).map (fun e => e.2)

/-- Model of the handler `receive_meta_ads_data` (webhook_server.py lines
61-128) after the JSON body has been parsed: 400 for an unknown slug, 500
carrying the exception text when the analysis raises, 200 with the status
summary when delivery succeeded (raising `KeyError` into a 500 when the
analysis dict lacks `metrics`/`type`), and 500 with `partial_success` and
the provider error when delivery failed.  The in-memory `received_data`
store is inspection-only state outside the claims and is not modelled. -/
def receive_meta_ads_data (slug : String) (data : PyVal) (ai : AiOut)
    (send : SendResult) (now : String) : HttpResponse :=
  match lookupClient slug with
  | Option.none =>
      ⟨400, .dict [("error", .str ("Client \x27" ++ slug ++ "\x27 not configured")),
                   ("available_clients",
                     .list (CLIENT_TASK_MAPPING.map (fun e => PyVal.str e.1)))]⟩
  | some cfg =>
    match analyze_daily_metrics data ai now with
    | .error e =>
        ⟨500, .dict [("error", .str (errStr e)),
                     ("message", .str "Failed to process webhook data")]⟩
    | .ok res =>
      if send.success then
        match res.metrics with
        | Option.none =>
            ⟨500, .dict [("error", .str (errStr (.keyError "metrics"))),
                         ("message", .str "Failed to process webhook data")]⟩
        | some m =>
          match res.type with
          | Option.none =>
              ⟨500, .dict [("error", .str (errStr (.keyError "type"))),
                           ("message", .str "Failed to process webhook data")]⟩
          | some t =>
              ⟨200, .dict [("status", .str "success"),
                           ("message", .str "Data received, analyzed, and posted to ClickUp"),
                           ("client", .str slug),
                           ("task_id", .str cfg.daily_task_id),
                           ("comment_id", optPy send.comment_id),
                           ("analysis_summary",
                             .dict [("metrics", .dict m), ("type", .str t)])]⟩
      else
        ⟨500, .dict [("status", .str "partial_success"),
                     ("message", .str "Data received and analyzed, but failed to post to ClickUp"),
                     ("error", optPy send.error)]⟩

/-- Model of the handler `receive_weekly_data` (webhook_server.py lines
192-240) after the JSON body has been parsed: 400 for an unknown slug, 500
carrying the exception text when the weekly analysis raises, 200 with the
status summary when delivery succeeded, and 500 with `status = "error"` and
the provider error when delivery failed. -/
def receive_weekly_data (slug : String) (data_list : PyVal) (ai : AiOut)
    (send : SendResult) (now : String) : HttpResponse :=
  match lookupClient slug with
  | Option.none =>
      ⟨400, .dict [("error", .str ("Client \x27" ++ slug ++ "\x27 not configured"))]⟩
  | some cfg =>
    match analyze_weekly_metrics data_list ai now with
    | .error e => ⟨500, .dict [("error", .str (errStr e))]⟩
    | .ok _res =>
      if send.success then
        ⟨200, .dict [("status", .str "success"),
                     ("message", .str "Weekly report generated and posted to ClickUp"),
                     ("client", .str slug),
                     ("task_id", .str cfg.weekly_task_id),
                     ("comment_id", optPy send.comment_id)]⟩
      else
        ⟨500, .dict [("status", .str "error"),
                     ("message", .str "Failed to post weekly report to ClickUp"),
                     ("error", optPy send.error)]⟩

/-- Shape test: the value is a string or falsy.  The fields the pipeline
feeds to `strip`/`strptime` must satisfy it for the run not to raise a
`TypeError`/`AttributeError` before reaching the generative call. -/
def strOrFalsyB : PyVal → Bool
  | .str _ => true
  | v => !pyTruthy v

/-- Shape test: the value is a dict or falsy, as the `results` field must be
for `.keys()` to be reachable without an `AttributeError`. -/
def dictOrFalsyB : PyVal → Bool
  | .dict _ => true
  | v => !pyTruthy v

/-- Shape of a daily record under which `analyze_daily_metrics` reaches the
generative call: `report_date`, `objective` and `campaign_name` are strings
or falsy and `results` is a dict or falsy.  Every other field is coerced
through the total safe helpers and may have any shape. -/
def dailyShapeOk (d : List (String × PyVal)) : Bool :=
  strOrFalsyB (dictGetD d "report_date" .none) &&
  strOrFalsyB (dictGetD d "objective" .none) &&
  strOrFalsyB (dictGetD d "campaign_name" (.str "")) &&
  dictOrFalsyB (dictGetD d "results" (.dict []))

/-- Claim-side token table of the campaign-name scan, in the claimed fixed
priority order with the tokens of meta_ads_analyzer.py lines 104-113. -/
def specTokenGroups : List (String × List String) :=
  [("CONVERSIONS", ["CONVERS", "VEND", "PURCHASE"]),
   ("MESSAGES", ["MENSAG", "MESSAGE", "WHATS", "DIRECT"]),
   ("TRAFFIC", ["TRÁFEG", "TRAFE", "CLIQU", "LINK"]),
   ("LEADS", ["LEAD", "CADAST"]),
   ("ENGAGEMENT", ["ENGAJ", "ENGAGE", "SEGUID", "PERFIL"])]

/-- Claim-side results-key table of meta_ads_analyzer.py lines 116-126, in
the same priority order. -/
def specResultGroups : List (String × List String) :=
  [("CONVERSIONS", ["purchases", "purchase", "orders"]),
   ("MESSAGES", ["messages_started", "messaging_conversations_started"]),
   ("TRAFFIC", ["link_clicks", "landing_page_views", "outbound_clicks"]),
   ("LEADS", ["leads"]),
   ("ENGAGEMENT", ["post_engagements", "engagements", "profile_visits", "follows"])]

/-- First group, in the given priority order, whose token set intersects
(some token satisfies the test); `none` when no group matches. -/
def firstMatching (groups : List (String × List String)) (p : String → Bool) :
    Option String :=
  match groups with
  | [] => Option.none
  | g :: rest => if g.2.any p then some g.1 else firstMatching rest p

/-- Claim-side description of the inference fallback: first token group (in
priority order) whose token occurs in the uppercased name wins, else first
key group intersecting the results keys wins, else UNKNOWN. -/
def inferSpec (name : String) (rkeys : List String) : String :=
  match firstMatching specTokenGroups (fun t => strContainsB name t) with
  | some tag => tag
  | Option.none =>
    match firstMatching specResultGroups (fun k => rkeys.contains k) with
    | some tag => tag
    | Option.none => "UNKNOWN"

/-- Claim-side date collection over a batch of record dicts: the parseable
truthy `report_date` strings, as order-preserved date keys. -/
def weekDates (ds : List (List (String × PyVal))) : List ℕ :=
  ds.filterMap (fun d =>
    match dictGetD d "report_date" .none with
    | .str s => if s != "" then parseYMD s else Option.none
    | _ => Option.none)

/-- Per-record spend coercion on a record dict, as the weekly totals sum it. -/
def recSpend (d : List (String × PyVal)) : ℚ :=
  safe_float (dictGetD d "spend" (.int 0)) 0

/-- Per-record impressions coercion on a record dict. -/
def recImpressions (d : List (String × PyVal)) : ℤ :=
  safe_int (dictGetD d "impressions" (.int 0)) 0

/-- Per-record clicks coercion on a record dict. -/
def recClicks (d : List (String × PyVal)) : ℤ :=
  safe_int (dictGetD d "clicks" (.int 0)) 0

/-- Per-record conversions coercion on a record dict. -/
def recConversions (d : List (String × PyVal)) : ℤ :=
  safe_int (dictGetD d "conversions" (.int 0)) 0

/-- Per-record ctr coercion on a record dict. -/
def recCtr (d : List (String × PyVal)) : ℚ :=
  safe_float (dictGetD d "ctr" (.int 0)) 0

/-- Rounding of an exact rational to the nearest IEEE-754 binary64 value,
ties to even, for magnitudes in the normal range: the scaled significand
`|q| / 2^(Int.log 2 |q| - 52)` lies in `[2^52, 2^53)` and is rounded to an
integer by `roundHalfEven`.  Overflow and subnormal underflow are outside
the model; no value in the claims approaches either. -/
def fl (q : ℚ) : ℚ :=
  if q = 0 then 0
  else
    let a : ℚ := |q|
    let e : ℤ := Int.log 2 a - 52
    let m : ℤ := roundHalfEven (a / (2:ℚ) ^ e)
    (if q < 0 then -1 else 1) * (m : ℚ) * (2:ℚ) ^ e

/-- CPython float summation `sum(xs)` over float values: a left fold that
starts at 0 and rounds the running total to binary64 after every
addition. -/
def flSum (l : List ℚ) : ℚ :=
  l.foldl (fun acc x => fl (acc + x)) 0

/-- The `total_spend` of meta_ads_analyzer.py line 598 under CPython float
semantics: the spend values are floats, so the running sum is rounded to
binary64 after each addition.  This is the rounding-faithful refinement of
the exact-rational `total_spend` of `weeklyAggregates`, used to settle
order-dependence of the float sums. -/
def weeklyTotalSpendFl (ds : List (List (String × PyVal))) : ℚ :=
  flSum (ds.map recSpend)

/-! Helper lemmas about string containment, list traversal and folds, shared
by the claim theorems below. -/

theorem strContains_piece (a n b : String) : strContains (a ++ n ++ b) n :=
  ⟨a, b, rfl⟩

theorem strContains_appendRight {h n : String} (x : String) (hc : strContains h n) :
    strContains (h ++ x) n := by
  obtain ⟨a, b, rfl⟩ := hc
  exact ⟨a, b ++ x, String.append_assoc _ b x⟩

theorem strContains_appendLeft {h n : String} (x : String) (hc : strContains h n) :
    strContains (x ++ h) n := by
  obtain ⟨a, b, rfl⟩ := hc
  refine ⟨x ++ a, b, ?_⟩
  simp [String.append_assoc]

theorem strContains_firstPart (n y : String) : strContains (n ++ y) n :=
  ⟨"", y, by rw [String.empty_append]⟩

theorem strContains_lastPart (x n : String) : strContains (x ++ n) n :=
  ⟨x, "", by rw [String.append_empty]⟩

/-- C2: for every input value of any shape, the numeric coercion helpers
never raise (they are total functions of the embedded value) and return the
default 0 whenever the value is `None`, a non-parseable string, a list or a
dict — i.e. whenever Python's own float coercion raises; booleans coerce
numerically (`float(True) = 1.0`) rather than raising. -/
theorem safe_float_safe_int_default_on_failure :
    (safe_float PyVal.none 0 = 0 ∧ safe_int PyVal.none 0 = 0) ∧
    (∀ s : String, pyParseFloat s = Option.none →
        safe_float (PyVal.str s) 0 = 0 ∧ safe_int (PyVal.str s) 0 = 0) ∧
    (∀ l : List PyVal, safe_float (PyVal.list l) 0 = 0 ∧ safe_int (PyVal.list l) 0 = 0) ∧
    (∀ entries : List (String × PyVal),
        safe_float (PyVal.dict entries) 0 = 0 ∧ safe_int (PyVal.dict entries) 0 = 0) ∧
    (∀ b : Bool, safe_float (PyVal.bool b) 0 = if b then 1 else 0) ∧
    (∀ (v : PyVal) (q : ℚ) (n : ℤ) (e : PyErr), pyFloat v = .error e →
        safe_float v q = q ∧ safe_int v n = n) := by
  refine ⟨⟨rfl, rfl⟩, ?_, ?_, ?_, ?_, ?_⟩
  · intro s h
    simp [safe_float, safe_int, pyFloat, h]
  · intro l
    exact ⟨rfl, rfl⟩
  · intro entries
    exact ⟨rfl, rfl⟩
  · intro b
    cases b <;> rfl
  · intro v q n e h
    simp [safe_float, safe_int, h]

theorem safe_float_safe_int_default_on_failure_witness :
    pyParseFloat "abc" = Option.none ∧
      (safe_float (PyVal.str "abc") 0 = 0 ∧ safe_int (PyVal.str "abc") 0 = 0) :=
  ⟨by decide, safe_float_safe_int_default_on_failure.2.1 "abc" (by decide)⟩

/-- C4: `_compute_roas` returns 0 whenever spend or conversion value is
nonpositive, and the exact quotient `conversion_value / spend` otherwise. -/
theorem compute_roas_zero_guard_and_quotient :
    ∀ spend conversion_value : ℚ,
      ((spend ≤ 0 ∨ conversion_value ≤ 0) → compute_roas spend conversion_value = 0) ∧
      (0 < spend → 0 < conversion_value →
        compute_roas spend conversion_value = conversion_value / spend) := by
  intro s v
  constructor
  · rintro (h | h) <;> simp [compute_roas, not_lt.mpr h]
  · intro hs hv
    simp [compute_roas, hs, hv]

/-- Pushing a successful `Except` constructor through a conditional. -/
theorem ok_ite {c : Prop} [Decidable c] (a b : String) :
    (Except.ok (if c then a else b) : Except PyErr String) =
      if c then Except.ok a else Except.ok b := by
  split <;> rfl

/-- Unfolding of the claim-side priority scan into the same guarded chain
the source's name scan and results scan use. -/
theorem inferSpec_eq_chain (name : String) (rkeys : List String) :
    inferSpec name rkeys =
      if strContainsB name "CONVERS" || strContainsB name "VEND" ||
          strContainsB name "PURCHASE" then "CONVERSIONS"
      else if strContainsB name "MENSAG" || strContainsB name "MESSAGE" ||
          strContainsB name "WHATS" || strContainsB name "DIRECT" then "MESSAGES"
      else if strContainsB name "TRÁFEG" || strContainsB name "TRAFE" ||
          strContainsB name "CLIQU" || strContainsB name "LINK" then "TRAFFIC"
      else if strContainsB name "LEAD" || strContainsB name "CADAST" then "LEADS"
      else if strContainsB name "ENGAJ" || strContainsB name "ENGAGE" ||
          strContainsB name "SEGUID" || strContainsB name "PERFIL" then "ENGAGEMENT"
      else if rkeys.contains "purchases" || rkeys.contains "purchase" ||
          rkeys.contains "orders" then "CONVERSIONS"
      else if rkeys.contains "messages_started" ||
          rkeys.contains "messaging_conversations_started" then "MESSAGES"
      else if rkeys.contains "link_clicks" || rkeys.contains "landing_page_views" ||
          rkeys.contains "outbound_clicks" then "TRAFFIC"
      else if rkeys.contains "leads" then "LEADS"
      else if rkeys.contains "post_engagements" || rkeys.contains "engagements" ||
          rkeys.contains "profile_visits" || rkeys.contains "follows" then "ENGAGEMENT"
      else "UNKNOWN" := by
  simp only [inferSpec, specTokenGroups, specResultGroups, firstMatching,
    List.any_cons, List.any_nil, Bool.or_false, Bool.or_assoc]
  generalize (strContainsB name "CONVERS" ||
    (strContainsB name "VEND" || strContainsB name "PURCHASE")) = g₁
  generalize (strContainsB name "MENSAG" || (strContainsB name "MESSAGE" ||
    (strContainsB name "WHATS" || strContainsB name "DIRECT"))) = g₂
  generalize (strContainsB name "TRÁFEG" || (strContainsB name "TRAFE" ||
    (strContainsB name "CLIQU" || strContainsB name "LINK"))) = g₃
  generalize (strContainsB name "LEAD" || strContainsB name "CADAST") = g₄
  generalize (strContainsB name "ENGAJ" || (strContainsB name "ENGAGE" ||
    (strContainsB name "SEGUID" || strContainsB name "PERFIL"))) = g₅
  generalize (rkeys.contains "purchases" ||
    (rkeys.contains "purchase" || rkeys.contains "orders")) = k₁
  generalize (rkeys.contains "messages_started" ||
    rkeys.contains "messaging_conversations_started") = k₂
  generalize (rkeys.contains "link_clicks" ||
    (rkeys.contains "landing_page_views" || rkeys.contains "outbound_clicks")) = k₃
  generalize (rkeys.contains "leads") = k₄
  generalize (rkeys.contains "post_engagements" || (rkeys.contains "engagements" ||
    (rkeys.contains "profile_visits" || rkeys.contains "follows"))) = k₅
  revert g₁ g₂ g₃ g₄ g₅ k₁ k₂ k₃ k₄ k₅
  decide

/-- C3: a truthy explicit objective field is normalized (`str`, `strip`,
`upper`) and passed through verbatim — even when it is not one of the five
known tags — independently of campaign name and results; with a falsy
objective the tag is the first match of the campaign-name token groups in
the fixed priority order CONVERSIONS, MESSAGES, TRAFFIC, LEADS, ENGAGEMENT,
then of the results-key groups in the same order, then UNKNOWN; and the
record with objective `""` and campaign name `"[ENGAJAMENTO] [PERFIL]"` is
inferred as ENGAGEMENT. -/
theorem infer_objective_passthrough_priority_example :
    (∀ cn obj res cn' res' : PyVal, pyTruthy obj = true →
        infer_objective cn obj res = .ok (pyUpper (pyStrip (pyStr obj))) ∧
        infer_objective cn obj res = infer_objective cn' obj res') ∧
    (∀ (s : String) (r : List (String × PyVal)) (obj : PyVal), pyTruthy obj = false →
        infer_objective (.str s) obj (.dict r) =
          .ok (inferSpec (pyUpper s) (r.map Prod.fst))) ∧
    infer_objective (.str "[ENGAJAMENTO] [PERFIL]") (.str "") (.dict []) =
      .ok "ENGAGEMENT" := by
  have hname : ∀ s : String, inferName (.str s) = .ok (pyUpper s) := by
    intro s
    by_cases hs : s = ""
    · subst hs
      simp [inferName, pyTruthy, pyUpper]
    · simp [inferName, pyTruthy, hs]
  have hkeys : ∀ r : List (String × PyVal),
      inferRKeys (.dict r) = .ok (r.map Prod.fst) := by
    intro r
    by_cases hr : r = []
    · subst hr
      simp [inferRKeys, pyTruthy]
    · simp [inferRKeys, pyTruthy, hr]
  refine ⟨?_, ?_, rfl⟩
  · intro cn obj res cn' res' h
    constructor
    · simp [infer_objective, h]
    · simp [infer_objective, h]
  · intro s r obj h
    rw [inferSpec_eq_chain]
    unfold infer_objective
    rw [h, if_neg (by decide), hname s, hkeys r]
    simp only [ok_ite]

theorem infer_objective_passthrough_priority_example_witness :
    (pyTruthy (PyVal.str " engagement ") = true ∧
      infer_objective (PyVal.str "[VENDA]") (PyVal.str " engagement ") (PyVal.dict []) =
        .ok (pyUpper (pyStrip (pyStr (PyVal.str " engagement ")))) ∧
      infer_objective (PyVal.str "[VENDA]") (PyVal.str " engagement ") (PyVal.dict []) =
        infer_objective (PyVal.str "[LEAD]") (PyVal.str " engagement ") (PyVal.dict [])) ∧
    (pyTruthy (PyVal.str "") = false ∧
      infer_objective (PyVal.str "[VENDA]") (PyVal.str "") (PyVal.dict []) =
        .ok (inferSpec (pyUpper "[VENDA]") (([] : List (String × PyVal)).map Prod.fst))) :=
  ⟨⟨by decide,
    (infer_objective_passthrough_priority_example.1 (PyVal.str "[VENDA]")
      (PyVal.str " engagement ") (PyVal.dict []) (PyVal.str "[LEAD]") (PyVal.dict [])
      (by decide)).1,
    (infer_objective_passthrough_priority_example.1 (PyVal.str "[VENDA]")
      (PyVal.str " engagement ") (PyVal.dict []) (PyVal.str "[LEAD]") (PyVal.dict [])
      (by decide)).2⟩,
   ⟨by decide,
    infer_objective_passthrough_priority_example.2.1 "[VENDA]" [] (PyVal.str "")
      (by decide)⟩⟩

/-- Traversal of a list of embedded dicts never raises and computes the
per-record values. -/
theorem mapME_dicts {β : Type} (f : PyVal → Except PyErr β)
    (g : List (String × PyVal) → β) (hf : ∀ c, f (PyVal.dict c) = .ok (g c)) :
    ∀ ds : List (List (String × PyVal)), mapME f (ds.map PyVal.dict) = .ok (ds.map g) := by
  intro ds
  induction ds with
  | nil => rfl
  | cons c t ih => simp [mapME, hf, ih]

/-- On a JSON array of record dicts the weekly aggregation block never
raises and computes sums of the per-record coercions, the guarded ctr mean
and the guarded weighted cpc. -/
theorem weeklyAggregates_dicts (ds : List (List (String × PyVal))) :
    weeklyAggregates (.list (ds.map PyVal.dict)) =
      .ok { total_spend := (ds.map recSpend).sum,
            total_impressions := (ds.map recImpressions).sum,
            total_clicks := (ds.map recClicks).sum,
            total_conversions := (ds.map recConversions).sum,
            avg_ctr := if ds.isEmpty then 0 else (ds.map recCtr).sum / (ds.length : ℚ),
            avg_cpc := if 0 < (ds.map recClicks).sum then
                (ds.map recSpend).sum / (((ds.map recClicks).sum : ℤ) : ℚ)
              else 0 } := by
  simp only [weeklyAggregates,
    show iterElems (.list (ds.map PyVal.dict)) = .ok (ds.map PyVal.dict) from rfl,
    mapME_dicts (getFloatOf "spend") recSpend (fun c => rfl) ds,
    mapME_dicts (getIntOf "impressions") recImpressions (fun c => rfl) ds,
    mapME_dicts (getIntOf "clicks") recClicks (fun c => rfl) ds,
    mapME_dicts (getIntOf "conversions") recConversions (fun c => rfl) ds,
    mapME_dicts (getFloatOf "ctr") recCtr (fun c => rfl) ds]
  by_cases hds : ds.isEmpty
  · rw [List.isEmpty_iff] at hds
    subst hds
    rfl
  · have ht : pyTruthy (.list (ds.map PyVal.dict)) = true := by
      rw [List.isEmpty_iff] at hds
      simp [pyTruthy, hds]
    simp [ht, pyLen, hds]

/-- C5: weekly aggregation computes `average_ctr` as the arithmetic mean of
the per-record ctr values (0 for the empty batch) and
`weighted_average_cpc` as `total_spend / total_clicks` when clicks are
positive and 0 otherwise; and the batch with spends `[10, 20, 30]` and
clicks `[5, 10, 15]` totals spend 60 with weighted cpc 2. -/
theorem weekly_avg_ctr_and_weighted_cpc :
    (∀ ds : List (List (String × PyVal)), ∃ a : WeeklyAgg,
        weeklyAggregates (.list (ds.map PyVal.dict)) = .ok a ∧
        a.avg_ctr = (if ds.isEmpty then 0 else (ds.map recCtr).sum / (ds.length : ℚ)) ∧
        a.avg_cpc =
          (if 0 < a.total_clicks then a.total_spend / (a.total_clicks : ℚ) else 0) ∧
        a.total_spend = (ds.map recSpend).sum) ∧
    (∃ a : WeeklyAgg,
        weeklyAggregates (.list ([[("spend", PyVal.int 10), ("clicks", PyVal.int 5)],
            [("spend", PyVal.int 20), ("clicks", PyVal.int 10)],
            [("spend", PyVal.int 30), ("clicks", PyVal.int 15)]].map PyVal.dict)) =
          .ok a ∧
        a.total_spend = 60 ∧ a.avg_cpc = 2) := by
  constructor
  · intro ds
    exact ⟨_, weeklyAggregates_dicts ds, rfl, rfl, rfl⟩
  · refine ⟨_, weeklyAggregates_dicts _, ?_, ?_⟩
    · norm_num [recSpend, safe_float, pyFloat, dictGetD, List.find?]
    · norm_num [recClicks, recSpend, safe_float, safe_int, pyFloat, ratTrunc, dictGetD,
        List.find?, show ("spend" == "clicks") = false from rfl,
        show ("clicks" == "clicks") = true from rfl,
        show ("spend" == "spend") = true from rfl]

/-- The dyadic logarithm is determined by the enclosing power-of-two
interval. -/
theorem intLog2_eq (a : ℚ) (l : ℤ) (h1 : (2:ℚ) ^ l ≤ a) (h2 : a < (2:ℚ) ^ (l + 1)) :
    Int.log 2 a = l := by
  have h0 : (0:ℚ) < a := lt_of_lt_of_le (zpow_pos (by norm_num) l) h1
  have hle : l ≤ Int.log 2 a := by
    have hmono : Int.log 2 ((((2:ℕ)):ℚ) ^ l) ≤ Int.log 2 a :=
      Int.log_mono_right (zpow_pos (by norm_num) l) (by push_cast; exact h1)
    rwa [Int.log_zpow (by norm_num) l] at hmono
  have hlt : Int.log 2 a < l + 1 := by
    by_contra hcon
    push_neg at hcon
    have hz : (2:ℚ) ^ (l + 1) ≤ (2:ℚ) ^ Int.log 2 a := zpow_le_zpow_right₀ one_le_two hcon
    have hlog : (2:ℚ) ^ Int.log 2 a ≤ a := Int.zpow_log_le_self (by norm_num) h0
    linarith
  omega

/-- Evaluation rule for `fl` at a positive value with known dyadic range
and rounded significand. -/
theorem fl_eval (q : ℚ) (l m : ℤ) (h0 : 0 < q) (h1 : (2:ℚ) ^ l ≤ q)
    (h2 : q < (2:ℚ) ^ (l + 1))
    (hm : roundHalfEven (q / (2:ℚ) ^ (l - 52)) = m) :
    fl q = (m : ℚ) * (2:ℚ) ^ (l - 52) := by
  have hq0 : ¬ q = 0 := ne_of_gt h0
  have hqneg : ¬ q < 0 := not_lt.mpr h0.le
  simp only [fl, hq0, hqneg, abs_of_pos h0, intLog2_eq q l h1 h2, hm, if_false, one_mul]

/-- C6 counterexample: under CPython float semantics the weekly
`total_spend` is order-dependent — the spend batches `[2^53, 1, 1]` and
`[1, 1, 2^53]` are permutations of each other, yet the left-to-right
rounded sums are `2^53` and `2^53 + 2` respectively (adding 1 to `2^53` is
a tie that rounds back down, while `1 + 1` accumulates to 2, which is
exactly representable above `2^53`).  So permuting the input list does
change the program's `total_spend`. -/
theorem weekly_total_spend_float_order_counterex :
    ([[("spend", PyVal.float 9007199254740992)], [("spend", PyVal.float 1)],
        [("spend", PyVal.float 1)]] :
      List (List (String × PyVal))).Perm
      [[("spend", PyVal.float 1)], [("spend", PyVal.float 1)],
        [("spend", PyVal.float 9007199254740992)]] ∧
    weeklyTotalSpendFl [[("spend", PyVal.float 9007199254740992)],
        [("spend", PyVal.float 1)], [("spend", PyVal.float 1)]] = 9007199254740992 ∧
    weeklyTotalSpendFl [[("spend", PyVal.float 1)], [("spend", PyVal.float 1)],
        [("spend", PyVal.float 9007199254740992)]] = 9007199254740994 ∧
    (9007199254740992 : ℚ) ≠ 9007199254740994 := by
  have hrecA : recSpend [("spend", PyVal.float 9007199254740992)] = 9007199254740992 := rfl
  have hrec1 : recSpend [("spend", PyVal.float 1)] = 1 := rfl
  have e53 : fl 9007199254740992 = 9007199254740992 := by
    have h := fl_eval 9007199254740992 53 4503599627370496 (by norm_num) (by norm_num)
      (by norm_num) (by norm_num [roundHalfEven])
    rw [h]
    norm_num
  have e53p1 : fl 9007199254740993 = 9007199254740992 := by
    have h := fl_eval 9007199254740993 53 4503599627370496 (by norm_num) (by norm_num)
      (by norm_num) (by norm_num [roundHalfEven])
    rw [h]
    norm_num
  have e53p2 : fl 9007199254740994 = 9007199254740994 := by
    have h := fl_eval 9007199254740994 53 4503599627370497 (by norm_num) (by norm_num)
      (by norm_num) (by norm_num [roundHalfEven])
    rw [h]
    norm_num
  have e1 : fl 1 = 1 := by
    have h := fl_eval 1 0 4503599627370496 (by norm_num) (by norm_num) (by norm_num)
      (by norm_num [roundHalfEven])
    rw [h]
    norm_num
  have e2 : fl 2 = 2 := by
    have h := fl_eval 2 1 4503599627370496 (by norm_num) (by norm_num) (by norm_num)
      (by norm_num [roundHalfEven])
    rw [h]
    norm_num
  refine ⟨?_, ?_, ?_, by norm_num⟩
  · exact (List.Perm.swap _ _ _).trans
      (List.Perm.cons _ (List.Perm.swap _ _ _))
  · simp only [weeklyTotalSpendFl, List.map_cons, List.map_nil, hrecA, hrec1, flSum,
      List.foldl_cons, List.foldl_nil, zero_add, e53,
      show (9007199254740992:ℚ) + 1 = 9007199254740993 from by norm_num, e53p1]
  · simp only [weeklyTotalSpendFl, List.map_cons, List.map_nil, hrecA, hrec1, flSum,
      List.foldl_cons, List.foldl_nil, zero_add, e1,
      show (1:ℚ) + 1 = 2 from by norm_num, e2,
      show (2:ℚ) + 9007199254740992 = 9007199254740994 from by norm_num, e53p2]

/-- C6 amended: permuting the weekly input batch leaves the integer
aggregates `total_impressions` and `total_clicks` unchanged (Python int
sums are exact), and leaves `total_spend` and `average_ctr` unchanged under
the exact-rational reading of the float sums computed by
`weeklyAggregates`; under CPython binary64 addition those two float
aggregates are not permutation-invariant (see the counterexample). -/
theorem weekly_aggregation_perm_invariant :
    ∀ ds₁ ds₂ : List (List (String × PyVal)), ds₁.Perm ds₂ →
      ∃ a₁ a₂ : WeeklyAgg,
        weeklyAggregates (.list (ds₁.map PyVal.dict)) = .ok a₁ ∧
        weeklyAggregates (.list (ds₂.map PyVal.dict)) = .ok a₂ ∧
        a₁.total_spend = a₂.total_spend ∧
        a₁.total_impressions = a₂.total_impressions ∧
        a₁.total_clicks = a₂.total_clicks ∧
        a₁.avg_ctr = a₂.avg_ctr := by
  intro ds₁ ds₂ hp
  refine ⟨_, _, weeklyAggregates_dicts ds₁, weeklyAggregates_dicts ds₂, ?_, ?_, ?_, ?_⟩
  · exact (hp.map recSpend).sum_eq
  · exact (hp.map recImpressions).sum_eq
  · exact (hp.map recClicks).sum_eq
  · by_cases h1 : ds₁ = []
    · subst h1
      rw [hp.symm.eq_nil]
    · have h2 : ds₂ ≠ [] := by
        intro h
        subst h
        exact h1 hp.eq_nil
      have h1e : ds₁.isEmpty = false := by
        simp [List.isEmpty_iff, h1]
      have h2e : ds₂.isEmpty = false := by
        simp [List.isEmpty_iff, h2]
      simp only [h1e, h2e, Bool.false_eq_true, if_false]
      rw [(hp.map recCtr).sum_eq, hp.length_eq]

theorem weekly_aggregation_perm_invariant_witness :
    ([[("spend", PyVal.int 1)], [("ctr", PyVal.float (5/2))]].Perm
        [[("ctr", PyVal.float (5/2))], [("spend", PyVal.int 1)]]) ∧
      (∃ a₁ a₂ : WeeklyAgg,
        weeklyAggregates (.list ([[("spend", PyVal.int 1)],
            [("ctr", PyVal.float (5/2))]].map PyVal.dict)) = .ok a₁ ∧
        weeklyAggregates (.list ([[("ctr", PyVal.float (5/2))],
            [("spend", PyVal.int 1)]].map PyVal.dict)) = .ok a₂ ∧
        a₁.total_spend = a₂.total_spend ∧
        a₁.total_impressions = a₂.total_impressions ∧
        a₁.total_clicks = a₂.total_clicks ∧
        a₁.avg_ctr = a₂.avg_ctr) :=
  ⟨List.Perm.swap _ _ _,
   weekly_aggregation_perm_invariant _ _ (List.Perm.swap _ _ _)⟩

/-- A left fold with `Nat.min` yields the seed or a list element, and is a
lower bound of both. -/
theorem foldl_min_spec (k : ℕ) (l : List ℕ) :
    (l.foldl Nat.min k = k ∨ l.foldl Nat.min k ∈ l) ∧
      l.foldl Nat.min k ≤ k ∧ ∀ x ∈ l, l.foldl Nat.min k ≤ x := by
  induction l generalizing k with
  | nil => simp
  | cons a t ih =>
    obtain ⟨hmem, hk, hall⟩ := ih (Nat.min k a)
    refine ⟨?_, ?_, ?_⟩
    · simp only [List.foldl_cons, List.mem_cons]
      rcases hmem with h | h
      · rcases Nat.le_total k a with hka | hka
        · exact Or.inl (h.trans (Nat.min_eq_left hka))
        · exact Or.inr (Or.inl (h.trans (Nat.min_eq_right hka)))
      · exact Or.inr (Or.inr h)
    · exact le_trans hk (Nat.min_le_left _ _)
    · intro x hx
      rcases List.mem_cons.mp hx with rfl | hx
      · exact le_trans hk (Nat.min_le_right _ _)
      · exact hall x hx

/-- A left fold with `Nat.max` yields the seed or a list element, and is an
upper bound of both. -/
theorem foldl_max_spec (k : ℕ) (l : List ℕ) :
    (l.foldl Nat.max k = k ∨ l.foldl Nat.max k ∈ l) ∧
      k ≤ l.foldl Nat.max k ∧ ∀ x ∈ l, x ≤ l.foldl Nat.max k := by
  induction l generalizing k with
  | nil => simp
  | cons a t ih =>
    obtain ⟨hmem, hk, hall⟩ := ih (Nat.max k a)
    refine ⟨?_, ?_, ?_⟩
    · simp only [List.foldl_cons, List.mem_cons]
      rcases hmem with h | h
      · rcases Nat.le_total k a with hka | hka
        · exact Or.inr (Or.inl (h.trans (Nat.max_eq_right hka)))
        · exact Or.inl (h.trans (Nat.max_eq_left hka))
      · exact Or.inr (Or.inr h)
    · exact le_trans (Nat.le_max_left _ _) hk
    · intro x hx
      rcases List.mem_cons.mp hx with rfl | hx
      · exact le_trans (Nat.le_max_right _ _) hk
      · exact hall x hx

/-- On a batch of record dicts whose `report_date` values are strings or
falsy, the date-collection loop never raises and collects exactly the
claim-side `weekDates`. -/
theorem collectDatesE_dicts (ds : List (List (String × PyVal)))
    (h : ∀ d ∈ ds, strOrFalsyB (dictGetD d "report_date" PyVal.none) = true) :
    collectDatesE (ds.map PyVal.dict) = .ok (weekDates ds) := by
  induction ds with
  | nil => rfl
  | cons c t ih =>
    have hc := h c (List.mem_cons_self c t)
    have iht := ih (fun d hd => h d (List.mem_cons_of_mem c hd))
    simp only [List.map_cons, weekDates, List.filterMap_cons]
    rcases hv : dictGetD c "report_date" PyVal.none with _ | b | n | q | s | l | e
    · simpa [collectDatesE, pyGetD, hv, pyTruthy, weekDates] using iht
    · have hb : b = false := by
        simpa [strOrFalsyB, hv, pyTruthy] using hc
      subst hb
      simpa [collectDatesE, pyGetD, hv, pyTruthy, weekDates] using iht
    · have hn : n = 0 := by
        simpa [strOrFalsyB, hv, pyTruthy] using hc
      subst hn
      simpa [collectDatesE, pyGetD, hv, pyTruthy, weekDates] using iht
    · have hq : q = 0 := by
        simpa [strOrFalsyB, hv, pyTruthy] using hc
      subst hq
      simpa [collectDatesE, pyGetD, hv, pyTruthy, weekDates] using iht
    · by_cases hs : s = ""
      · subst hs
        simpa [collectDatesE, pyGetD, hv, pyTruthy, weekDates] using iht
      · rcases hp : parseYMD s with _ | k
        · simpa [collectDatesE, pyGetD, hv, pyTruthy, hs, hp, weekDates] using iht
        · simp [collectDatesE, pyGetD, hv, pyTruthy, hs, hp, weekDates, iht]
    · have hl : l = [] := by
        simpa [strOrFalsyB, hv, pyTruthy] using hc
      subst hl
      simpa [collectDatesE, pyGetD, hv, pyTruthy, weekDates] using iht
    · have he : e = [] := by
        simpa [strOrFalsyB, hv, pyTruthy] using hc
      subst he
      simpa [collectDatesE, pyGetD, hv, pyTruthy, weekDates] using iht

/-- C7: on a batch whose `report_date` values are strings or absent/falsy
(as the record type prescribes), `resolve_week_range` never raises, ignores
missing and unparseable entries, and renders the range `[min, max]` of the
successfully parsed dates — the min and max are parsed dates bounding every
parsed date — or the explicit not-informed sentinel when none parse. -/
theorem resolve_week_range_min_max_sentinel :
    ∀ ds : List (List (String × PyVal)),
      (∀ d ∈ ds, strOrFalsyB (dictGetD d "report_date" PyVal.none) = true) →
      (weekDates ds = [] →
        resolve_week_range (.list (ds.map PyVal.dict)) = .ok weekRangeSentinel) ∧
      (∀ k rest, weekDates ds = k :: rest →
        ∃ mn mx, mn ∈ weekDates ds ∧ mx ∈ weekDates ds ∧
          (∀ x ∈ weekDates ds, mn ≤ x ∧ x ≤ mx) ∧
          resolve_week_range (.list (ds.map PyVal.dict)) =
            .ok (fmtDMY mn ++ " a " ++ fmtDMY mx)) := by
  intro ds h
  have helems : (if pyTruthy (.list (ds.map PyVal.dict)) then
      iterElems (.list (ds.map PyVal.dict)) else .ok []) = .ok (ds.map PyVal.dict) := by
    cases ds with
    | nil => rfl
    | cons c t => rfl
  constructor
  · intro hnil
    simp [resolve_week_range, helems, collectDatesE_dicts ds h, hnil]
  · intro k rest hcons
    refine ⟨rest.foldl Nat.min k, rest.foldl Nat.max k, ?_, ?_, ?_, ?_⟩
    · rw [hcons]
      rcases (foldl_min_spec k rest).1 with hh | hh
      · rw [hh]
        exact List.mem_cons_self k rest
      · exact List.mem_cons_of_mem k hh
    · rw [hcons]
      rcases (foldl_max_spec k rest).1 with hh | hh
      · rw [hh]
        exact List.mem_cons_self k rest
      · exact List.mem_cons_of_mem k hh
    · rw [hcons]
      intro x hx
      rcases List.mem_cons.mp hx with rfl | hx
      · exact ⟨(foldl_min_spec x rest).2.1, (foldl_max_spec x rest).2.1⟩
      · exact ⟨(foldl_min_spec k rest).2.2 x hx, (foldl_max_spec k rest).2.2 x hx⟩
    · simp [resolve_week_range, helems, collectDatesE_dicts ds h, hcons]

theorem resolve_week_range_min_max_sentinel_witness :
    ((∀ d ∈ [[("spend", PyVal.int 1)]],
        strOrFalsyB (dictGetD d "report_date" PyVal.none) = true) ∧
      weekDates [[("spend", PyVal.int 1)]] = []) ∧
      resolve_week_range (.list ([[("spend", PyVal.int 1)]].map PyVal.dict)) =
        .ok weekRangeSentinel :=
  ⟨⟨by decide, by decide⟩,
   (resolve_week_range_min_max_sentinel [[("spend", PyVal.int 1)]] (by decide)).1
     (by decide)⟩

/-- A string-or-falsy `report_date` makes the date resolution succeed (with
the ambient clock as `generated_at`). -/
theorem resolve_report_dates_ok (d : List (String × PyVal)) (now : String)
    (h : strOrFalsyB (dictGetD d "report_date" PyVal.none) = true) :
    ∃ rd, resolve_report_dates d now = .ok (rd, now) := by
  rcases hv : dictGetD d "report_date" PyVal.none with _ | b | n | q | s | l | e₀
  · exact ⟨_, by simp [resolve_report_dates, hv, pyTruthy]; rfl⟩
  · have hb : b = false := by simpa [strOrFalsyB, hv, pyTruthy] using h
    subst hb
    exact ⟨_, by simp [resolve_report_dates, hv, pyTruthy]; rfl⟩
  · have hn : n = 0 := by simpa [strOrFalsyB, hv, pyTruthy] using h
    subst hn
    exact ⟨_, by simp [resolve_report_dates, hv, pyTruthy]; rfl⟩
  · have hq : q = 0 := by simpa [strOrFalsyB, hv, pyTruthy] using h
    subst hq
    exact ⟨_, by simp [resolve_report_dates, hv, pyTruthy]; rfl⟩
  · by_cases hs : s = ""
    · subst hs
      exact ⟨_, by simp [resolve_report_dates, hv, pyTruthy]; rfl⟩
    · rcases hp : parseYMD s with _ | k
      · exact ⟨_, by simp [resolve_report_dates, hv, pyTruthy, hs, hp]; rfl⟩
      · exact ⟨_, by simp [resolve_report_dates, hv, pyTruthy, hs, hp]; rfl⟩
  · have hl : l = [] := by simpa [strOrFalsyB, hv, pyTruthy] using h
    subst hl
    exact ⟨_, by simp [resolve_report_dates, hv, pyTruthy]; rfl⟩
  · have he : e₀ = [] := by simpa [strOrFalsyB, hv, pyTruthy] using h
    subst he
    exact ⟨_, by simp [resolve_report_dates, hv, pyTruthy]; rfl⟩

/-- A string-or-falsy `objective` makes the objective-field extraction
succeed. -/
theorem objectiveFieldOf_ok (d : List (String × PyVal))
    (h : strOrFalsyB (dictGetD d "objective" PyVal.none) = true) :
    ∃ s, objectiveFieldOf d = .ok s := by
  rcases hv : dictGetD d "objective" PyVal.none with _ | b | n | q | s | l | e₀
  · exact ⟨_, by simp [objectiveFieldOf, hv, pyTruthy]; rfl⟩
  · have hb : b = false := by simpa [strOrFalsyB, hv, pyTruthy] using h
    subst hb
    exact ⟨_, by simp [objectiveFieldOf, hv, pyTruthy]; rfl⟩
  · have hn : n = 0 := by simpa [strOrFalsyB, hv, pyTruthy] using h
    subst hn
    exact ⟨_, by simp [objectiveFieldOf, hv, pyTruthy]; rfl⟩
  · have hq : q = 0 := by simpa [strOrFalsyB, hv, pyTruthy] using h
    subst hq
    exact ⟨_, by simp [objectiveFieldOf, hv, pyTruthy]; rfl⟩
  · by_cases hs : s = ""
    · subst hs
      exact ⟨_, by simp [objectiveFieldOf, hv, pyTruthy]; rfl⟩
    · exact ⟨_, by simp [objectiveFieldOf, hv, pyTruthy, hs]; rfl⟩
  · have hl : l = [] := by simpa [strOrFalsyB, hv, pyTruthy] using h
    subst hl
    exact ⟨_, by simp [objectiveFieldOf, hv, pyTruthy]; rfl⟩
  · have he : e₀ = [] := by simpa [strOrFalsyB, hv, pyTruthy] using h
    subst he
    exact ⟨_, by simp [objectiveFieldOf, hv, pyTruthy]; rfl⟩

/-- A string-or-falsy campaign name makes the name extraction of the
inference succeed. -/
theorem inferName_ok (cn : PyVal) (h : strOrFalsyB cn = true) :
    ∃ nm, inferName cn = .ok nm := by
  rcases cn with _ | b | n | q | s | l | e₀
  · exact ⟨_, by simp [inferName, pyTruthy]; rfl⟩
  · have hb : b = false := by simpa [strOrFalsyB, pyTruthy] using h
    subst hb
    exact ⟨_, by simp [inferName, pyTruthy]; rfl⟩
  · have hn : n = 0 := by simpa [strOrFalsyB, pyTruthy] using h
    subst hn
    exact ⟨_, by simp [inferName, pyTruthy]; rfl⟩
  · have hq : q = 0 := by simpa [strOrFalsyB, pyTruthy] using h
    subst hq
    exact ⟨_, by simp [inferName, pyTruthy]; rfl⟩
  · by_cases hs : s = ""
    · subst hs
      exact ⟨_, by simp [inferName, pyTruthy]; rfl⟩
    · exact ⟨_, by simp [inferName, pyTruthy, hs]; rfl⟩
  · have hl : l = [] := by simpa [strOrFalsyB, pyTruthy] using h
    subst hl
    exact ⟨_, by simp [inferName, pyTruthy]; rfl⟩
  · have he : e₀ = [] := by simpa [strOrFalsyB, pyTruthy] using h
    subst he
    exact ⟨_, by simp [inferName, pyTruthy]; rfl⟩

/-- A dict-or-falsy results value makes the key extraction of the inference
succeed. -/
theorem inferRKeys_ok (res : PyVal) (h : dictOrFalsyB res = true) :
    ∃ ks, inferRKeys res = .ok ks := by
  rcases res with _ | b | n | q | s | l | e₀
  · exact ⟨_, by simp [inferRKeys, pyTruthy]; rfl⟩
  · have hb : b = false := by simpa [dictOrFalsyB, pyTruthy] using h
    subst hb
    exact ⟨_, by simp [inferRKeys, pyTruthy]; rfl⟩
  · have hn : n = 0 := by simpa [dictOrFalsyB, pyTruthy] using h
    subst hn
    exact ⟨_, by simp [inferRKeys, pyTruthy]; rfl⟩
  · have hq : q = 0 := by simpa [dictOrFalsyB, pyTruthy] using h
    subst hq
    exact ⟨_, by simp [inferRKeys, pyTruthy]; rfl⟩
  · have hs : s = "" := by simpa [dictOrFalsyB, pyTruthy] using h
    subst hs
    exact ⟨_, by simp [inferRKeys, pyTruthy]; rfl⟩
  · have hl : l = [] := by simpa [dictOrFalsyB, pyTruthy] using h
    subst hl
    exact ⟨_, by simp [inferRKeys, pyTruthy]; rfl⟩
  · by_cases he : e₀ = []
    · subst he
      exact ⟨_, by simp [inferRKeys, pyTruthy]; rfl⟩
    · exact ⟨_, by simp [inferRKeys, pyTruthy, he]; rfl⟩

set_option maxHeartbeats 2000000 in
/-- With a string-or-falsy campaign name and a dict-or-falsy results value
the inference never raises. -/
theorem infer_objective_ok (cn obj res : PyVal) (hcn : strOrFalsyB cn = true)
    (hres : dictOrFalsyB res = true) : ∃ t, infer_objective cn obj res = .ok t := by
  unfold infer_objective
  by_cases ho : pyTruthy obj
  · exact ⟨_, by simp [ho]; rfl⟩
  · have ho2 : pyTruthy obj = false := by simpa using ho
    obtain ⟨nm, hn⟩ := inferName_ok cn hcn
    obtain ⟨ks, hk⟩ := inferRKeys_ok res hres
    simp only [ho2, Bool.false_eq_true, if_false, hn, hk]
    split_ifs <;> exact ⟨_, rfl⟩

/-- Under the daily shape conditions the prompt construction (performed
before the `try` block) never raises. -/
theorem build_daily_prompt_ok (d : List (String × PyVal))
    (h2 : strOrFalsyB (dictGetD d "objective" PyVal.none) = true)
    (h3 : strOrFalsyB (dictGetD d "campaign_name" (.str "")) = true)
    (h4 : dictOrFalsyB (dictGetD d "results" (.dict [])) = true) :
    ∃ p, build_daily_prompt d = .ok p := by
  unfold build_daily_prompt
  obtain ⟨s, hs⟩ := objectiveFieldOf_ok d h2
  have hres : dictOrFalsyB
      (if pyTruthy (dictGetD d "results" (.dict [])) then
        dictGetD d "results" (.dict []) else .dict []) = true := by
    by_cases ht : pyTruthy (dictGetD d "results" (.dict [])) = true
    · simpa [ht] using h4
    · simp only [Bool.not_eq_true] at ht
      simp [ht, dictOrFalsyB]
  obtain ⟨t, hti⟩ := infer_objective_ok _ (.str s) _ h3 hres
  simp only [hs, hti]
  exact ⟨_, rfl⟩

/-- The fallback report always carries the rendered campaign name and the
base KPI labels of the source template. -/
theorem fallback_contains (d : List (String × PyVal)) (now rd : String)
    (hrd : resolve_report_dates d now = .ok (rd, now)) :
    ∃ fb, format_daily_comment_fallback d now = .ok fb ∧
      strContains fb (pyStr (dictGetD d "campaign_name" (.str "Campanha sem nome"))) ∧
      strContains fb "**Spend:**" ∧ strContains fb "**Impressões:**" ∧
      strContains fb "**CPM:**" ∧ strContains fb "**Frequência:**" := by
  simp only [format_daily_comment_fallback, hrd]
  refine ⟨_, rfl, ?_, ?_, ?_, ?_, ?_⟩ <;> simp only [String.append_assoc]
  · exact strContains_appendLeft _ (strContains_appendLeft _ (strContains_appendLeft _
      (strContains_appendLeft _ (strContains_appendLeft _ (strContains_firstPart _ _)))))
  · exact strContains_appendLeft _ (strContains_appendLeft _ (strContains_appendLeft _
      (strContains_appendLeft _ (strContains_appendLeft _ (strContains_appendLeft _
      (strContains_appendRight _
        ⟨"**\n\n**KPIs (base)**\n• 💰 ", " R$ ", rfl⟩))))))
  · exact strContains_appendLeft _ (strContains_appendLeft _ (strContains_appendLeft _
      (strContains_appendLeft _ (strContains_appendLeft _ (strContains_appendLeft _
      (strContains_appendLeft _ (strContains_appendLeft _
      (strContains_appendRight _ ⟨"  \n• 👁️ ", " ", rfl⟩))))))))
  · exact strContains_appendLeft _ (strContains_appendLeft _ (strContains_appendLeft _
      (strContains_appendLeft _ (strContains_appendLeft _ (strContains_appendLeft _
      (strContains_appendLeft _ (strContains_appendLeft _ (strContains_appendLeft _
      (strContains_appendLeft _
      (strContains_appendRight _ ⟨"  \n• 📢 ", " R$ ", rfl⟩))))))))))
  · exact strContains_appendLeft _ (strContains_appendLeft _ (strContains_appendLeft _
      (strContains_appendLeft _ (strContains_appendLeft _ (strContains_appendLeft _
      (strContains_appendLeft _ (strContains_appendLeft _ (strContains_appendLeft _
      (strContains_appendLeft _ (strContains_appendLeft _ (strContains_appendLeft _
      (strContains_appendRight _ ⟨"  \n• 🔄 ", " ", rfl⟩))))))))))))

/-- C1: whenever the generative call raises (any exception text `e`), the
daily analysis still returns a complete result dict with `success = False`,
the exception recorded under `error`, and a fallback report that carries the
rendered campaign name and the base KPI block labels (Spend, Impressões,
CPM, Frequência); no exception of the generative call propagates.  The
shape hypothesis characterises the records on which control reaches the
generative call at all (the pre-`try` code raises on other shapes before
the call is made). -/
theorem analyze_daily_ai_failure_fallback :
    ∀ (d : List (String × PyVal)) (e now : String),
      dailyShapeOk d = true →
      ∃ fb, analyze_daily_metrics (.dict d) (.error e) now =
          .ok { success := false, error := some e, formatted_comment := fb } ∧
        strContains fb (pyStr (dictGetD d "campaign_name" (.str "Campanha sem nome"))) ∧
        strContains fb "**Spend:**" ∧ strContains fb "**Impressões:**" ∧
        strContains fb "**CPM:**" ∧ strContains fb "**Frequência:**" := by
  intro d e now h
  have h' := h
  simp only [dailyShapeOk, Bool.and_eq_true] at h'
  obtain ⟨⟨⟨h1, h2⟩, h3⟩, h4⟩ := h'
  obtain ⟨rd, hrd⟩ := resolve_report_dates_ok d now h1
  obtain ⟨p, hp⟩ := build_daily_prompt_ok d h2 h3 h4
  obtain ⟨fb, hfb, hc1, hc2, hc3, hc4, hc5⟩ := fallback_contains d now rd hrd
  refine ⟨fb, ?_, hc1, hc2, hc3, hc4, hc5⟩
  simp only [analyze_daily_metrics, hrd, hp, hfb]

theorem analyze_daily_ai_failure_fallback_witness :
    dailyShapeOk [("campaign_name", PyVal.str "[TESTE]")] = true ∧
      (∃ fb, analyze_daily_metrics (.dict [("campaign_name", PyVal.str "[TESTE]")])
            (.error "boom") "07/10/2026 às 08:00" =
          .ok { success := false, error := some "boom", formatted_comment := fb } ∧
        strContains fb
          (pyStr (dictGetD [("campaign_name", PyVal.str "[TESTE]")] "campaign_name"
            (.str "Campanha sem nome"))) ∧
        strContains fb "**Spend:**" ∧ strContains fb "**Impressões:**" ∧
        strContains fb "**CPM:**" ∧ strContains fb "**Frequência:**") :=
  ⟨by decide,
   analyze_daily_ai_failure_fallback [("campaign_name", PyVal.str "[TESTE]")] "boom"
     "07/10/2026 às 08:00" (by decide)⟩

/-- C8 counterexample: a request whose analysis succeeds but whose delivery
fails is answered with HTTP 500, not 502, by both the daily and the weekly
handler (webhook_server.py lines 112-119 and 227-234 both build the failure
response with `status_code=500`). -/
theorem delivery_failure_not_502_counterex :
    ((receive_meta_ads_data "snob-motel" (.dict []) (.ok (some "analysis"))
        { success := false, error := some "provider boom" } "now").status = 500 ∧
      (receive_meta_ads_data "snob-motel" (.dict []) (.ok (some "analysis"))
        { success := false, error := some "provider boom" } "now").status ≠ 502) ∧
    ((receive_weekly_data "snob-motel" (.list []) (.ok (some "analysis"))
        { success := false, error := some "provider boom" } "now").status = 500 ∧
      (receive_weekly_data "snob-motel" (.list []) (.ok (some "analysis"))
        { success := false, error := some "provider boom" } "now").status ≠ 502) := by
  refine ⟨⟨rfl, ?_⟩, ⟨rfl, ?_⟩⟩
  · intro hc
    rw [show (receive_meta_ads_data "snob-motel" (.dict []) (.ok (some "analysis"))
        { success := false, error := some "provider boom" } "now").status = 500
      from rfl] at hc
    omega
  · intro hc
    rw [show (receive_weekly_data "snob-motel" (.list []) (.ok (some "analysis"))
        { success := false, error := some "provider boom" } "now").status = 500
      from rfl] at hc
    omega

/-- C8 amended: for every webhook request whose analysis succeeds but whose
delivery to the task tracker fails, the handler responds with HTTP status
500 (not 502) — `partial_success` for the daily route, `error` for the
weekly route — carrying the provider's error payload under `error`. -/
theorem delivery_failure_returns_500 :
    (∀ (slug : String) (body : PyVal) (ai : AiOut) (send : SendResult)
        (now : String) (cfg : ClientConfig) (res : DailyResult),
        lookupClient slug = some cfg →
        analyze_daily_metrics body ai now = .ok res →
        send.success = false →
        receive_meta_ads_data slug body ai send now =
          ⟨500, .dict [("status", .str "partial_success"),
                       ("message", .str "Data received and analyzed, but failed to post to ClickUp"),
                       ("error", optPy send.error)]⟩) ∧
    (∀ (slug : String) (body : PyVal) (ai : AiOut) (send : SendResult)
        (now : String) (cfg : ClientConfig) (res : WeeklyResult),
        lookupClient slug = some cfg →
        analyze_weekly_metrics body ai now = .ok res →
        send.success = false →
        receive_weekly_data slug body ai send now =
          ⟨500, .dict [("status", .str "error"),
                       ("message", .str "Failed to post weekly report to ClickUp"),
                       ("error", optPy send.error)]⟩) := by
  constructor
  · intro slug body ai send now cfg res hslug hana hsend
    simp only [receive_meta_ads_data, hslug, hana, hsend, Bool.false_eq_true, if_false]
  · intro slug body ai send now cfg res hslug hana hsend
    simp only [receive_weekly_data, hslug, hana, hsend, Bool.false_eq_true, if_false]

theorem delivery_failure_returns_500_witness :
    receive_meta_ads_data "snob-motel" (.dict []) (.ok (some "analysis"))
        { success := false, error := some "provider boom" } "now" =
      ⟨500, .dict [("status", .str "partial_success"),
                   ("message", .str "Data received and analyzed, but failed to post to ClickUp"),
                   ("error", .str "provider boom")]⟩ := by
  obtain ⟨res, hres⟩ :
      ∃ res, analyze_daily_metrics (.dict []) (.ok (some "analysis")) "now" = .ok res :=
    ⟨_, rfl⟩
  exact delivery_failure_returns_500.1 "snob-motel" (.dict []) (.ok (some "analysis"))
    { success := false, error := some "provider boom" } "now" _ res rfl hres rfl

/-- C9 counterexample: a weekly request whose JSON body is the single
record object `(spend = 10)` is not treated as a one-element array: the
analysis raises an `AttributeError` (iterating the dict yields its keys)
and the handler answers 500, while the same record wrapped in a
one-element array yields a successful report. -/
theorem weekly_single_object_counterex :
    analyze_weekly_metrics (.dict [("spend", PyVal.int 10)]) (.ok (some "A")) "now" =
        .error (.attributeError "object has no attribute \x27get\x27") ∧
      (∃ res, analyze_weekly_metrics (.list [.dict [("spend", PyVal.int 10)]])
          (.ok (some "A")) "now" = .ok res ∧ res.success = true) ∧
      (receive_weekly_data "snob-motel" (.dict [("spend", PyVal.int 10)])
          (.ok (some "A")) { success := true } "now").status = 500 :=
  ⟨rfl, ⟨_, rfl, rfl⟩, rfl⟩

/-- C9 amended: a non-array single JSON object is not wrapped into a
single-element array.  Iterating the object yields its keys, so for every
non-empty object the weekly aggregation raises an `AttributeError` on the
first key and the handler responds 500; only the empty object degenerates
to the same behaviour as the empty array. -/
theorem weekly_single_object_not_wrapped :
    (∀ (k : String) (v : PyVal) (t : List (String × PyVal)) (ai : AiOut) (now : String),
        analyze_weekly_metrics (.dict ((k, v) :: t)) ai now =
          .error (.attributeError "object has no attribute \x27get\x27")) ∧
    (∀ (k : String) (v : PyVal) (t : List (String × PyVal)) (ai : AiOut)
        (send : SendResult) (now : String),
        (receive_weekly_data "snob-motel" (.dict ((k, v) :: t)) ai send now).status = 500) ∧
    (∀ (ai : AiOut) (now : String),
        analyze_weekly_metrics (.dict []) ai now = analyze_weekly_metrics (.list []) ai now) := by
  refine ⟨fun k v t ai now => rfl, fun k v t ai send now => rfl, fun ai now => rfl⟩

/-- C10 counterexample: a consolidated payload with a non-empty campaigns
list, an explicitly empty `client_name` and no `report_date` leaves the
caller's payload entirely unchanged — its single campaign dict still lacks
`client_name` after the call — so the claimed unconditional write (and the
claimed guaranteed mutation) does not hold. -/
theorem consolidated_no_mutation_counterex :
    consolidatedCampaignsAfter
        [("client_name", PyVal.str ""), ("campaigns", PyVal.list [PyVal.dict []])] =
      dictGetD [("client_name", PyVal.str ""), ("campaigns", PyVal.list [PyVal.dict []])]
        "campaigns" PyVal.none ∧
    consolidatedCampaignsAfter
        [("client_name", PyVal.str ""), ("campaigns", PyVal.list [PyVal.dict []])] =
      PyVal.list [PyVal.dict []] :=
  ⟨rfl, rfl⟩

/-- Key membership distributes over dict concatenation. -/
theorem hasKey_append (a b : List (String × PyVal)) (k : String) :
    hasKey (a ++ b) k = (hasKey a k || hasKey b k) := by
  unfold hasKey
  exact List.any_append

/-- An absent key is not found. -/
theorem find?_eq_none_of_hasKey_false {c : List (String × PyVal)} {k : String}
    (h : hasKey c k = false) : c.find? (fun e => e.1 == k) = Option.none := by
  rw [List.find?_eq_none]
  intro x hx hpx
  have hany : c.any (fun e => e.1 == k) = true := List.any_eq_true.mpr ⟨x, hx, hpx⟩
  unfold hasKey at h
  rw [h] at hany
  exact absurd hany (by simp)

/-- Looking up a key appended at the end of a dict that lacked it yields the
appended value, also through a further appended tail. -/
theorem dictGetD_insert {c : List (String × PyVal)} {k : String}
    (h : hasKey c k = false) (v dflt : PyVal) (tail : List (String × PyVal)) :
    dictGetD ((c ++ [(k, v)]) ++ tail) k dflt = v := by
  unfold dictGetD
  rw [List.find?_append, List.find?_append, find?_eq_none_of_hasKey_false h]
  simp [List.find?]

/-- The loop writes the payload's `report_date` into a campaign dict that
lacked the key, when the payload's value is truthy. -/
theorem update_sets_report_date (prd cn : PyVal) (c : List (String × PyVal))
    (h1 : hasKey c "report_date" = false) (h2 : pyTruthy prd = true) :
    dictGetD (updateConsolidatedCampaign prd cn c) "report_date" PyVal.none = prd := by
  unfold updateConsolidatedCampaign
  simp only [h1, h2, Bool.not_false, Bool.true_and]
  simp only [if_true]
  split
  · exact dictGetD_insert h1 prd PyVal.none [("client_name", cn)]
  · simpa using dictGetD_insert h1 prd PyVal.none []

/-- The loop writes the resolved `client_name` into a campaign dict that
lacked the key, when that value is truthy. -/
theorem update_sets_client_name (prd cn : PyVal) (c : List (String × PyVal))
    (h1 : hasKey c "client_name" = false) (h2 : pyTruthy cn = true) :
    dictGetD (updateConsolidatedCampaign prd cn c) "client_name" PyVal.none = cn := by
  unfold updateConsolidatedCampaign
  split
  · have hk : hasKey (c ++ [("report_date", prd)]) "client_name" = false := by
      rw [hasKey_append, h1]
      rfl
    simp only [hk, h2, Bool.not_false, Bool.true_and]
    simp only [if_true]
    simpa using dictGetD_insert hk cn PyVal.none []
  · simp only [h1, h2, Bool.not_false, Bool.true_and]
    simp only [if_true]
    simpa using dictGetD_insert h1 cn PyVal.none []

/-- Whenever one of the two writes applies, the campaign dict strictly
grows, so the in-place update is visible. -/
theorem updateConsolidated_grows (prd cn : PyVal) (c : List (String × PyVal))
    (h : (hasKey c "report_date" = false ∧ pyTruthy prd = true) ∨
         (hasKey c "client_name" = false ∧ pyTruthy cn = true)) :
    c.length < (updateConsolidatedCampaign prd cn c).length := by
  unfold updateConsolidatedCampaign
  rcases h with ⟨h1, h2⟩ | ⟨h1, h2⟩
  · simp only [h1, h2, Bool.not_false, Bool.true_and]
    simp only [if_true]
    split
    · simp [List.length_append]
      try omega
    · simp [List.length_append]
      try omega
  · split
    · have hk : hasKey (c ++ [("report_date", prd)]) "client_name" = false := by
        rw [hasKey_append, h1]
        rfl
      simp only [hk, h2, Bool.not_false, Bool.true_and]
      simp only [if_true]
      simp [List.length_append]
      try omega
    · simp only [h1, h2, Bool.not_false, Bool.true_and]
      simp only [if_true]
      simp [List.length_append]
      try omega

/-- C10 amended: for a payload whose campaigns value is a non-empty list of
dicts, the call rewrites the caller's campaigns in place through
`updateConsolidatedCampaign`: a campaign lacking `report_date` gains it when
the payload's `report_date` is truthy, a campaign lacking `client_name`
gains the resolved client name when that value is truthy (the default
applies when the key is absent, but an explicitly falsy payload
`client_name` suppresses the write), and whenever at least one such write
applies the payload is visibly mutated. -/
theorem consolidated_mutates_campaigns :
    ∀ (payload : List (String × PyVal)) (ds : List (List (String × PyVal))),
      dictGetD payload "campaigns" PyVal.none = .list (ds.map PyVal.dict) →
      ds ≠ [] →
      (consolidatedCampaignsAfter payload =
        .list (ds.map (fun c => PyVal.dict (updateConsolidatedCampaign
          (dictGetD payload "report_date" PyVal.none)
          (dictGetD payload "client_name" (.str "Snob Motel LTDA")) c)))) ∧
      (∀ c : List (String × PyVal), hasKey c "report_date" = false →
        pyTruthy (dictGetD payload "report_date" PyVal.none) = true →
        dictGetD (updateConsolidatedCampaign
            (dictGetD payload "report_date" PyVal.none)
            (dictGetD payload "client_name" (.str "Snob Motel LTDA")) c)
          "report_date" PyVal.none = dictGetD payload "report_date" PyVal.none) ∧
      (∀ c : List (String × PyVal), hasKey c "client_name" = false →
        pyTruthy (dictGetD payload "client_name" (.str "Snob Motel LTDA")) = true →
        dictGetD (updateConsolidatedCampaign
            (dictGetD payload "report_date" PyVal.none)
            (dictGetD payload "client_name" (.str "Snob Motel LTDA")) c)
          "client_name" PyVal.none =
          dictGetD payload "client_name" (.str "Snob Motel LTDA")) ∧
      ((∃ c ∈ ds,
          (hasKey c "report_date" = false ∧
            pyTruthy (dictGetD payload "report_date" PyVal.none) = true) ∨
          (hasKey c "client_name" = false ∧
            pyTruthy (dictGetD payload "client_name" (.str "Snob Motel LTDA")) = true)) →
        consolidatedCampaignsAfter payload ≠ .list (ds.map PyVal.dict)) := by
  intro payload ds hc hds
  have hpost : consolidatedCampaignsAfter payload =
      .list (ds.map (fun c => PyVal.dict (updateConsolidatedCampaign
        (dictGetD payload "report_date" PyVal.none)
        (dictGetD payload "client_name" (.str "Snob Motel LTDA")) c))) := by
    unfold consolidatedCampaignsAfter
    rw [hc]
    have hne : (ds.map PyVal.dict).isEmpty = false := by
      cases ds with
      | nil => exact absurd rfl hds
      | cons a t => rfl
    simp only [hne, Bool.false_eq_true, if_false, List.map_map]
    exact congrArg PyVal.list (List.map_inj_left.mpr (fun c hc => rfl))
  refine ⟨hpost, ?_, ?_, ?_⟩
  · intro c h1 h2
    exact update_sets_report_date _ _ c h1 h2
  · intro c h1 h2
    exact update_sets_client_name _ _ c h1 h2
  · rintro ⟨c, hcmem, hcond⟩ heq
    rw [hpost] at heq
    have hmaps : ds.map (fun c => PyVal.dict (updateConsolidatedCampaign
        (dictGetD payload "report_date" PyVal.none)
        (dictGetD payload "client_name" (.str "Snob Motel LTDA")) c)) =
        ds.map PyVal.dict := by
      injection heq
    have hc' := List.map_inj_left.mp hmaps c hcmem
    have hupd : updateConsolidatedCampaign
        (dictGetD payload "report_date" PyVal.none)
        (dictGetD payload "client_name" (.str "Snob Motel LTDA")) c = c := by
      injection hc'
    have hlen := updateConsolidated_grows
      (dictGetD payload "report_date" PyVal.none)
      (dictGetD payload "client_name" (.str "Snob Motel LTDA")) c hcond
    rw [hupd] at hlen
    omega

theorem consolidated_mutates_campaigns_witness :
    (dictGetD [("report_date", PyVal.str "2025-12-29"),
        ("campaigns", PyVal.list [PyVal.dict []])] "campaigns" PyVal.none =
      .list (([[]] : List (List (String × PyVal))).map PyVal.dict)) ∧
    (([[]] : List (List (String × PyVal))) ≠ []) ∧
    (consolidatedCampaignsAfter [("report_date", PyVal.str "2025-12-29"),
        ("campaigns", PyVal.list [PyVal.dict []])] ≠
      .list (([[]] : List (List (String × PyVal))).map PyVal.dict)) :=
  ⟨rfl, by simp,
   (consolidated_mutates_campaigns
      [("report_date", PyVal.str "2025-12-29"), ("campaigns", PyVal.list [PyVal.dict []])]
      [[]] rfl (by simp)).2.2.2 ⟨[], by simp, Or.inl ⟨rfl, rfl⟩⟩⟩

theorem compute_roas_zero_guard_and_quotient_witness :
    (((0:ℚ) ≤ 0 ∨ (5:ℚ) ≤ 0) ∧ compute_roas 0 5 = 0) ∧
      (0 < (2:ℚ) ∧ 0 < (6:ℚ) ∧ compute_roas 2 6 = 6 / 2) :=
  ⟨⟨Or.inl le_rfl, (compute_roas_zero_guard_and_quotient 0 5).1 (Or.inl le_rfl)⟩,
   ⟨by norm_num, by norm_num,
    (compute_roas_zero_guard_and_quotient 2 6).2 (by norm_num) (by norm_num)⟩⟩

end MetaAds
